import Mathlib

/-! AquaVault: groundwater classification and projection

A shallow embedding of the computational core of the AquaVault front end:

* `getGroundwaterCategory` and `getCategoryColor` from
  `services/GroundWaterMapViewUtils.js`, and their copies in
  `components/MapView.jsx`;
* `getFormattedHistoricalData`, `getFormattedRainfallData`,
  `getWaterBalanceData`, `getProjectionData` and `getRiskAssessmentData` from
  `components/AdvancedVisualizationModal.jsx`.

Modelling conventions.

* A JavaScript number is a rational (`ℚ`): arithmetic is exact, there is no
  `NaN`, no infinity and no binary rounding of the literals `0.9`, `0.7`, ...
  Binary arithmetic can differ from the exact value in the last digit, and so
  fall on the other side of a rounding tie.  Statements about a rounded output
  are therefore order relations, which rounding preserves, or bound the
  distance between the output and the exact value it rounds; an equality is
  stated only where it repeats the operations of the code.
* A field of the region record is `Option`: `none` is an absent (`undefined`)
  property.  Truthiness follows JavaScript: an absent field, the number `0` and
  the empty string are falsy.
* A string is a well-formed string (`String`).  The library function
  `String.prototype.toUpperCase` is an argument of the classifier and is left
  unspecified.
* `x.toFixed(2)` followed by `parseFloat` is rounding to two decimals, ties
  away from zero; at magnitudes of `10^21` and above `toFixed` prints the number
  itself, so the value is unchanged.  `Math.round` is rounding to the nearest
  integer, ties towards `+∞`.
* A division whose divisor a guard protects is recorded together with its
  divisor (`CategoryRun`, `Division`).
-/

set_option autoImplicit false

namespace AquaVault

/-! Data model -/

/-- The region record `data` read by the classifier and by the visualisation
modal.  Only the properties the modelled functions read are listed. -/
structure RegionData where
  groundWaterExtraction : Option ℚ
  category : Option String
  annualExtractable : Option ℚ
  annualExtractableResources : Option ℚ
  rainfall : Option ℚ
  extraction : Option ℚ
  groundWaterRecharge : Option ℚ
  naturalDischarges : Option ℚ
  level : Option ℚ

/-- One element of the series returned by `getFormattedHistoricalData`; only
`year` and `level` are read by `getProjectionData`. -/
structure HistoricalPoint where
  year : ℤ
  level : ℚ

/-- One element of the array returned by `getProjectionData`. -/
structure ProjectionPoint where
  year : ℤ
  current : Option ℚ
  noChange : ℚ
  noChangeLower : ℚ
  noChangeUpper : ℚ
  conservative : ℚ
  aggressive : ℚ
  worstCase : ℚ

/-! JavaScript primitives -/

/-- Truthiness of a numeric property: absent and `0` are falsy. -/
def truthyNum (v : Option ℚ) : Bool :=
  match v with
  | some x => decide (x ≠ 0)
  | none => false

/-- Truthiness of a string property: absent and `""` are falsy. -/
def truthyStr (v : Option String) : Bool :=
  match v with
  | some s => decide (s ≠ "")
  | none => false

/-- The expression `a || b || 0` on numeric properties. -/
def orOrZero (a b : Option ℚ) : ℚ :=
  match a with
  | some x => if x ≠ 0 then x else
      match b with
      | some y => if y ≠ 0 then y else 0
      | none => 0
  | none =>
      match b with
      | some y => if y ≠ 0 then y else 0
      | none => 0

/-- The comparison `v < bound` where `v` may be absent: `undefined < n` is
`false`. -/
def ltNum (v : Option ℚ) (bound : ℚ) : Bool :=
  match v with
  | some x => decide (x < bound)
  | none => false

/-- The expression `s.charAt(0).toUpperCase() + s.slice(1)` on a well-formed
string.  The argument `toUpperCase` is the library function
`String.prototype.toUpperCase`, which is left unspecified: it follows the
Unicode case mapping and can lengthen the string.  When the first character
lies outside the Basic Multilingual Plane, `charAt(0)` is a lone surrogate,
which `toUpperCase` leaves as it is, so the concatenation is the string
itself. -/
def capitalizeFirst (toUpperCase : String → String) (s : String) : String :=
  match s.data with
  | [] => toUpperCase ""
  | c :: cs =>
      if c.toNat < 65536 then toUpperCase (String.mk [c]) ++ String.mk cs else s

/-- Rounding to two decimals, ties away from zero: the digits `toFixed(2)`
prints for a number of magnitude below `10^21`. -/
def roundCents (x : ℚ) : ℚ :=
  if x < 0 then -((⌊-x * 100 + 1 / 2⌋ : ℤ) : ℚ) / 100
  else ((⌊x * 100 + 1 / 2⌋ : ℤ) : ℚ) / 100

/-- The expression `parseFloat(x.toFixed(2))`. -/
def toFixed2 (x : ℚ) : ℚ :=
  if (10 : ℚ) ^ 21 ≤ |x| then x else roundCents x

/-! Classifier (`GroundWaterMapViewUtils.js`, lines 44-64) -/

/-- The value of the local `annualExtractable` (lines 52-53). -/
def annualExtractableOf (data : RegionData) : ℚ :=
  orOrZero data.annualExtractable data.annualExtractableResources

/-- The value `data.groundWaterExtraction / annualExtractable` (line 56). -/
def extractionRatioOf (data : RegionData) : ℚ :=
  (data.groundWaterExtraction.getD 0) / annualExtractableOf data

/-- What one run of `getGroundwaterCategory` does: the string it returns and,
when control reaches the division of line 56, the denominator used there. -/
structure CategoryRun where
  result : String
  divisor : Option ℚ

/-- The body of `getGroundwaterCategory`, statement by statement. -/
def getGroundwaterCategoryRun (toUpperCase : String → String) (data : Option RegionData) :
    CategoryRun :=
  match data with
  | none => ⟨"No Data", none⟩
  | some d =>
    if !truthyNum d.groundWaterExtraction then ⟨"No Data", none⟩
    else if truthyStr d.category then
      ⟨capitalizeFirst toUpperCase (d.category.getD ""), none⟩
    else
      let annualExtractable := annualExtractableOf d
      if annualExtractable = 0 then ⟨"No Data", none⟩
      else
        let extractionRatio := (d.groundWaterExtraction.getD 0) / annualExtractable
        if extractionRatio > 1 then ⟨"Over Exploited", some annualExtractable⟩
        else if extractionRatio > 9 / 10 then ⟨"Critical", some annualExtractable⟩
        else if extractionRatio > 7 / 10 then ⟨"Semi Critical", some annualExtractable⟩
        else if ltNum d.rainfall 700 then ⟨"Saline", some annualExtractable⟩
        else ⟨"Safe", some annualExtractable⟩

/-- The function `getGroundwaterCategory`. -/
def getGroundwaterCategory (toUpperCase : String → String) (data : Option RegionData) :
    String :=
  (getGroundwaterCategoryRun toUpperCase data).result

/-- The seven category names of the specification, as the specification
writes them. -/
def specCategories : List String :=
  ["Safe", "Semi-Critical", "Critical", "Over-Exploited", "Saline", "Hilly-Area", "No-Data"]

/-- The same seven categories in the spelling of the string literals of the
source (`getGroundwaterCategory` and the keys of `getCategoryColor`). -/
def sourceCategories : List String :=
  ["Safe", "Semi Critical", "Critical", "Over Exploited", "Saline", "Hilly Area", "No Data"]

/-! Projection engine (`AdvancedVisualizationModal.jsx`, lines 302-416)

`getProjectionData` first calls `getFormattedHistoricalData()`; the series that
call returns is the argument `historicalData` of the model. -/

/-- A quotient together with the divisor of the division that produced it. -/
structure Division where
  quotient : ℚ
  divisor : ℚ

/-- The division `a / b`, keeping its divisor. -/
def divide (a b : ℚ) : Division := ⟨a / b, b⟩

/-- The division that computes the local `historicalSlope` (lines 316-320):
`(historicalEnd - historicalStart) / Math.max(1, historicalYears - 1)`; there
is none for an empty series, for which `getProjectionData` has already
returned. -/
def historicalSlopeRun (historicalData : List HistoricalPoint) : Option Division :=
  match historicalData.head?, historicalData.getLast? with
  | some first, some last =>
      some (divide (last.level - first.level) (max 1 ((historicalData.length : ℚ) - 1)))
  | _, _ => none

/-- The value of the local `historicalSlope`: the quotient of
`historicalSlopeRun`. -/
def historicalSlopeOf (historicalData : List HistoricalPoint) : ℚ :=
  match historicalSlopeRun historicalData with
  | some run => run.quotient
  | none => 0

/-- The local `extractionRate` (line 323): `data.extraction || 50`. -/
def extractionRateOf (data : RegionData) : ℚ :=
  if truthyNum data.extraction then data.extraction.getD 0 else 50

/-- The local `rainfallFactor` (lines 326-328). -/
def rainfallFactorOf (data : RegionData) : ℚ :=
  if truthyNum data.rainfall then
    min 1 (max (-1) ((data.rainfall.getD 0 - 900) / 500))
  else 0

/-- The local `rechargeBalance` (lines 331-335). -/
def rechargeBalanceOf (data : RegionData) : ℚ :=
  if truthyNum data.groundWaterRecharge && truthyNum data.groundWaterExtraction then
    (data.groundWaterRecharge.getD 0 - data.groundWaterExtraction.getD 0) /
      max 1 (data.groundWaterRecharge.getD 0)
  else 0

/-- The arrow function `getClimateImpact` (line 338); `currentYear` is the
variable it closes over. -/
def getClimateImpact (currentYear year : ℤ) : ℚ :=
  -(1 / 50) * (((year - currentYear : ℤ)) : ℚ)

/-- The extraction term of `projectionFactor` (lines 345-351). -/
def extractionImpact (extractionRate : ℚ) : ℚ :=
  if extractionRate > 80 then -(2 / 5)
  else if extractionRate > 60 then -(1 / 5)
  else if extractionRate > 40 then -(1 / 10)
  else 1 / 20

/-- The local `projectionFactor` (lines 341-355). -/
def projectionFactorOf (data : RegionData) (historicalData : List HistoricalPoint) : ℚ :=
  historicalSlopeOf historicalData * (6 / 5) +
    extractionImpact (extractionRateOf data) +
    rainfallFactorOf data * (1 / 10) +
    rechargeBalanceOf data * (3 / 20)

/-- The local `uncertaintyFactor` (line 362). -/
def uncertaintyFactor (i : ℕ) : ℚ := (1 / 20) * (i : ℚ)

/-- The local `noChange` (lines 365-368), before rounding. -/
def noChangeAt (currentLevel projectionFactor : ℚ) (currentYear : ℤ) (i : ℕ) : ℚ :=
  max 1 (currentLevel + projectionFactor * (i : ℚ) +
    getClimateImpact currentYear (currentYear + (i : ℤ)))

/-- The local `noChangeLower` (line 371), before rounding. -/
def noChangeLowerAt (currentLevel projectionFactor : ℚ) (currentYear : ℤ) (i : ℕ) : ℚ :=
  max 1 (noChangeAt currentLevel projectionFactor currentYear i * (1 - uncertaintyFactor i))

/-- The local `noChangeUpper` (line 372), before rounding. -/
def noChangeUpperAt (currentLevel projectionFactor : ℚ) (currentYear : ℤ) (i : ℕ) : ℚ :=
  noChangeAt currentLevel projectionFactor currentYear i * (1 + uncertaintyFactor i)

/-- The local `conservative` (lines 375-381), before rounding. -/
def conservativeAt (currentLevel projectionFactor : ℚ) (currentYear : ℤ) (i : ℕ) : ℚ :=
  max 1 (currentLevel +
    (if projectionFactor < 0 then projectionFactor * (1 / 2) else projectionFactor) * (i : ℚ) +
    getClimateImpact currentYear (currentYear + (i : ℤ)) * (7 / 10))

/-- The local `aggressive` (lines 384-391), before rounding. -/
def aggressiveAt (currentLevel projectionFactor : ℚ) (currentYear : ℤ) (i : ℕ) : ℚ :=
  max 1 (currentLevel +
    (if projectionFactor < 0 then projectionFactor * (1 / 4) else projectionFactor) * (i : ℚ) +
    getClimateImpact currentYear (currentYear + (i : ℤ)) * (1 / 2) +
    (if i > 2 then (1 / 10) * ((i : ℚ) - 2) else 0))

/-- The local `worstCase` (lines 394-397), before rounding. -/
def worstCaseAt (currentLevel projectionFactor : ℚ) (currentYear : ℤ) (i : ℕ) : ℚ :=
  max 1 (currentLevel + projectionFactor * (3 / 2) * (i : ℚ) +
    getClimateImpact currentYear (currentYear + (i : ℤ)) * (3 / 2))

/-- The object built for horizon index `i` (lines 399-414). -/
def projectionPoint (currentLevel projectionFactor : ℚ) (currentYear : ℤ) (i : ℕ) :
    ProjectionPoint where
  year := currentYear + (i : ℤ)
  current := if i = 0 then some currentLevel else none
  noChange := toFixed2 (noChangeAt currentLevel projectionFactor currentYear i)
  noChangeLower := toFixed2 (noChangeLowerAt currentLevel projectionFactor currentYear i)
  noChangeUpper := toFixed2 (noChangeUpperAt currentLevel projectionFactor currentYear i)
  conservative := toFixed2 (conservativeAt currentLevel projectionFactor currentYear i)
  aggressive := toFixed2 (aggressiveAt currentLevel projectionFactor currentYear i)
  worstCase := toFixed2 (worstCaseAt currentLevel projectionFactor currentYear i)

/-- The function `getProjectionData`: empty for an empty series, otherwise
`Array.from({ length: 6 }, (_, i) => ...)` anchored at the last point. -/
def getProjectionData (data : RegionData) (historicalData : List HistoricalPoint) :
    List ProjectionPoint :=
  match historicalData.getLast? with
  | none => []
  | some last =>
      (List.range 6).map
        (projectionPoint last.level (projectionFactorOf data historicalData) last.year)

/-- The width `noChangeUpper - noChangeLower` of the band of a point. -/
def bandWidth (p : ProjectionPoint) : ℚ := p.noChangeUpper - p.noChangeLower

/-- The band widths of the projection, by horizon index. -/
def bandWidths (data : RegionData) (historicalData : List HistoricalPoint) : List ℚ :=
  (getProjectionData data historicalData).map bandWidth

/-! Historical trend (`AdvancedVisualizationModal.jsx`, lines 130-195)

The property `data.historicalLevels` is the argument `historicalLevels` of the
model.  What the function reads from its environment is collected in
`TrendEnv`: the calendar year, the value of `Math.random()` and the library
functions `Math.sin` and `Math.cos`, whose results are numbers and are left
unspecified. -/

/-- The environment of `getFormattedHistoricalData`. -/
structure TrendEnv where
  currentYear : ℤ
  random : ℚ
  sin : ℚ → ℚ
  cos : ℚ → ℚ

/-- One element of the array returned by `getFormattedHistoricalData`; the
synthetic branch builds no `fiveYearAvg`. -/
structure TrendPoint where
  year : ℤ
  level : ℚ
  trend : ℚ
  safe : ℚ
  fiveYearAvg : Option ℚ
  climate_impact : ℚ
  human_impact : ℚ

/-- The function `Math.round`: the nearest integer, ties towards `+∞`. -/
def mathRound (x : ℚ) : ℚ := ((⌊x + 1 / 2⌋ : ℤ) : ℚ)

/-- The expression `arr[k].level`. -/
def levelAt (arr : List HistoricalPoint) (k : ℕ) : ℚ :=
  match arr[k]? with
  | some p => p.level
  | none => 0

/-- The local `startLevel` of the synthetic branch (line 135). -/
def startLevelOf (env : TrendEnv) : ℚ :=
  mathRound ((15 + env.random * 5) * 10) / 10

/-- The object built for index `i` by the synthetic branch (lines 137-157). -/
def syntheticPoint (env : TrendEnv) (i : ℕ) : TrendPoint :=
  let startLevel := startLevelOf env
  let year := env.currentYear - 9 + (i : ℤ)
  let randomFactor := env.sin ((i : ℚ) * (1 / 2)) * (3 / 10)
  let trendFactor := (i : ℚ) / 20
  let level := mathRound ((startLevel - trendFactor + randomFactor) * 10) / 10
  { year := year
    level := level
    trend := mathRound ((level - (i : ℚ) / 15) * 10) / 10
    safe := mathRound ((startLevel - 1 + (if i > 5 then -(1 / 5) else 0)) * 10) / 10
    fiveYearAvg := none
    climate_impact := mathRound (env.cos ((i : ℚ) * (4 / 5)) * (2 / 5) * 10) / 10
    human_impact := mathRound (-(1 / 20) * (i : ℚ) * 10) / 10 }

/-- The object built for index `idx` and element `item` by the branch for a
supplied series (lines 161-194). -/
def enhancedPoint (env : TrendEnv) (arr : List HistoricalPoint) (idx : ℕ)
    (item : HistoricalPoint) : TrendPoint :=
  let fiveYearAvg :=
    if idx ≥ 4 then
      (levelAt arr (idx - 4) + levelAt arr (idx - 3) + levelAt arr (idx - 2) +
        levelAt arr (idx - 1) + item.level) / 5
    else item.level
  let slope :=
    if arr.length > 2 then
      (levelAt arr (arr.length - 1) - levelAt arr 0) / ((arr.length : ℚ) - 1)
    else -(1 / 20)
  let trendValue := levelAt arr 0 + slope * (idx : ℚ)
  { year := item.year
    level := item.level
    trend := mathRound (trendValue * 10) / 10
    safe := min (item.level * (6 / 5)) (item.level + 2)
    fiveYearAvg := some (mathRound (fiveYearAvg * 10) / 10)
    climate_impact := mathRound (env.sin ((idx : ℚ) * (4 / 5)) * (3 / 10) * 10) / 10
    human_impact := mathRound (-(3 / 100) * (idx : ℚ) * 10) / 10 }

/-- The function `getFormattedHistoricalData`: ten synthetic points when the
series is absent or empty, otherwise one enhanced point per supplied point. -/
def getFormattedHistoricalData (env : TrendEnv)
    (historicalLevels : Option (List HistoricalPoint)) : List TrendPoint :=
  match historicalLevels with
  | none => (List.range 10).map (syntheticPoint env)
  | some [] => (List.range 10).map (syntheticPoint env)
  | some (first :: rest) =>
      List.zipWith (enhancedPoint env (first :: rest))
        (List.range (first :: rest).length) (first :: rest)

/-! Water balance (`AdvancedVisualizationModal.jsx`, lines 282-299) -/

/-- One `{ name, value }` entry of the water balance. -/
structure BalanceEntry where
  name : String
  value : ℚ

/-- The function `getWaterBalanceData`. -/
def getWaterBalanceData (data : RegionData) : List BalanceEntry :=
  if !truthyNum data.groundWaterRecharge || !truthyNum data.groundWaterExtraction then []
  else
    [ ⟨"Recharge", data.groundWaterRecharge.getD 0⟩,
      ⟨"Extraction", data.groundWaterExtraction.getD 0⟩,
      ⟨"Natural Discharge", orOrZero data.naturalDischarges none⟩,
      ⟨"Net Balance",
        data.groundWaterRecharge.getD 0 - data.groundWaterExtraction.getD 0 -
          orOrZero data.naturalDischarges none⟩ ]

/-- The value of the first entry with the given name, if there is one. -/
def balanceValue (name : String) (entries : List BalanceEntry) : Option ℚ :=
  (entries.find? (fun e => e.name == name)).map (fun e => e.value)

/-! Risk assessment (`AdvancedVisualizationModal.jsx`, lines 419-450) -/

/-- One `{ subject, A, fullMark }` entry of the risk profile. -/
structure RiskEntry where
  subject : String
  A : ℚ
  fullMark : ℚ

/-- The local `extractionFactor` of `getRiskAssessmentData` (lines 421-423). -/
def riskExtractionFactor (data : RegionData) : ℚ :=
  if truthyNum data.extraction then min 100 (data.extraction.getD 0) / 100 else 1 / 2

/-- The local `levelFactor` of `getRiskAssessmentData` (lines 424-426). -/
def riskLevelFactor (data : RegionData) : ℚ :=
  if truthyNum data.level then max 0 (min 1 (data.level.getD 0 / 20)) else 1 / 2

/-- The local `rainfallFactor` of `getRiskAssessmentData` (lines 427-429). -/
def riskRainfallFactor (data : RegionData) : ℚ :=
  if truthyNum data.rainfall then max 0 (min 1 (1 - data.rainfall.getD 0 / 1500)) else 1 / 2

/-- The function `getRiskAssessmentData`. -/
def getRiskAssessmentData (data : RegionData) : List RiskEntry :=
  let extractionFactor := riskExtractionFactor data
  let levelFactor := riskLevelFactor data
  let rainfallFactor := riskRainfallFactor data
  [ ⟨"Depletion Risk", extractionFactor * 100, 100⟩,
    ⟨"Quality Risk", levelFactor * 100, 100⟩,
    ⟨"Rainfall Dependency", rainfallFactor * 100, 100⟩,
    ⟨"Sustainability", 100 - (extractionFactor * 70 + levelFactor * 30), 100⟩,
    ⟨"Recharge Potential", 100 - rainfallFactor * 100, 100⟩ ]

/-- The score (`A`) of the first entry with the given subject, if there is one. -/
def riskScore (subject : String) (entries : List RiskEntry) : Option ℚ :=
  (entries.find? (fun e => e.subject == subject)).map (fun e => e.A)

/-! The formulas of the specification, in its own words -/

/-- The specification's `clamp(x, lo, hi)`. -/
def specClamp (x lo hi : ℚ) : ℚ := max lo (min hi x)

/-- The specification's `extractionPenalty(rate)` (section 4.4, step 4). -/
def extractionPenalty (rate : ℚ) : ℚ :=
  if rate > 80 then -(2 / 5)
  else if rate > 60 then -(1 / 5)
  else if rate > 40 then -(1 / 10)
  else 1 / 20

/-! Rainfall pattern (`AdvancedVisualizationModal.jsx`, lines 198-279)

The property `data.monthlyRainfall` is the argument `monthlyRainfall` of the
model.  `RainEnv` holds the successive values of `Math.random()` (numbered in
the order of the calls) and the library functions `Math.sin`, `Math.cos`. -/

/-- The environment of `getFormattedRainfallData`. -/
structure RainEnv where
  random : ℕ → ℚ
  sin : ℚ → ℚ
  cos : ℚ → ℚ

/-- One element `{ month, rainfall }` of `data.monthlyRainfall`. -/
structure MonthlyRainfallPoint where
  month : String
  rainfall : ℚ

/-- One element of the array returned by `getFormattedRainfallData`. -/
structure RainfallPoint where
  month : String
  rainfall : ℚ
  historicalAvg : ℚ
  avgRainfall : ℚ
  expected : ℚ
  climateImpact : ℚ

/-- The local `months` (lines 202-215). -/
def months : List String :=
  ["Jan", "Feb", "Mar", "Apr", "May", "Jun", "Jul", "Aug", "Sep", "Oct", "Nov", "Dec"]

/-- The local `basePattern` (line 218). -/
def basePattern : List ℚ := [20, 15, 25, 40, 60, 120, 180, 190, 140, 70, 30, 10]

/-- The object built for index `idx` and name `month` by the synthetic branch
(lines 220-248); the two calls of `Math.random()` are calls `2·idx` and
`2·idx + 1`. -/
def syntheticRainfallPoint (env : RainEnv) (idx : ℕ) (month : String) : RainfallPoint :=
  let variationFactor := 17 / 20 + env.random (2 * idx) * (3 / 10)
  let rainfall := mathRound (basePattern.getD idx 0 * variationFactor)
  let historicalAvg :=
    mathRound (basePattern.getD idx 0 * (1 + env.sin (idx : ℚ) * (3 / 20)))
  let climateChangeFactor :=
    mathRound (basePattern.getD idx 0 * (if idx % 2 = 0 then 9 / 10 else 11 / 10) *
      (1 / 20) * 10) / 10
  { month := month
    rainfall := rainfall
    historicalAvg := historicalAvg
    avgRainfall := mathRound (rainfall * (9 / 10))
    expected := mathRound (rainfall * (19 / 20 + env.random (2 * idx + 1) * (1 / 5)))
    climateImpact := climateChangeFactor }

/-- The callback of `values.map((val, idx, arr) => ...)` building `movingAvg`
(lines 255-259). -/
def movingAvgAt (arr : List ℚ) (idx : ℕ) (val : ℚ) : ℚ :=
  if idx < 2 then val
  else arr.getD (idx - 2) 0 * (1 / 5) + arr.getD (idx - 1) 0 * (3 / 10) + val * (1 / 2)

/-- The local `movingAvg` for the array `values`. -/
def movingAvgOf (values : List ℚ) : List ℚ :=
  List.zipWith (movingAvgAt values) (List.range values.length) values

/-- The local `climateImpact` for the array `values` (lines 262-265). -/
def climateImpactOf (env : RainEnv) (values : List ℚ) : List ℚ :=
  List.zipWith (fun idx _ => env.cos ((idx : ℚ) * (7 / 10)) * ((idx : ℚ) * (2 / 5)))
    (List.range values.length) values

/-- The object built for index `index` and element `item` by the branch for a
supplied series (lines 267-278). -/
def analysedRainfallPoint (env : RainEnv) (movingAvg climateImpact : List ℚ) (index : ℕ)
    (item : MonthlyRainfallPoint) : RainfallPoint where
  month := item.month
  rainfall := item.rainfall
  historicalAvg := mathRound (item.rainfall * (1 + env.sin (index : ℚ) * (1 / 10)))
  avgRainfall := mathRound (movingAvg.getD index 0)
  expected := mathRound (item.rainfall * (23 / 25 + env.random index * (4 / 25)))
  climateImpact := mathRound (climateImpact.getD index 0)

/-- The function `getFormattedRainfallData`: twelve synthetic months when the
series is absent or empty, otherwise one analysed point per supplied point. -/
def getFormattedRainfallData (env : RainEnv)
    (monthlyRainfall : Option (List MonthlyRainfallPoint)) : List RainfallPoint :=
  match monthlyRainfall with
  | none => List.zipWith (syntheticRainfallPoint env) (List.range months.length) months
  | some [] => List.zipWith (syntheticRainfallPoint env) (List.range months.length) months
  | some (first :: rest) =>
      let values := (first :: rest).map (fun item => item.rainfall)
      let movingAvg := movingAvgOf values
      let climateImpact := climateImpactOf env values
      List.zipWith (analysedRainfallPoint env movingAvg climateImpact)
        (List.range (first :: rest).length) (first :: rest)

/-- The expression `arr[k]` on the array `values` of the rainfall of a supplied
series. -/
def rainfallAt (series : List MonthlyRainfallPoint) (k : ℕ) : ℚ :=
  (series.map (fun item => item.rainfall)).getD k 0

/-! Colours (`GroundWaterMapViewUtils.js`, lines 65-77) -/

/-- The object literal `colors` of `getCategoryColor`. -/
def colors : List (String × String) :=
  [("Safe", "#22c55e"), ("Semi-critical", "#3b82f6"), ("Semi Critical", "#3b82f6"),
    ("Critical", "#eab308"), ("Over Exploited", "#ef4444"), ("Saline", "#059669"),
    ("Hilly Area", "#6b7280"), ("No Data", "#d1d5db")]

/-- The function `getCategoryColor`: `colors[category] || colors["No Data"]`,
the property lookup being that of the own properties of the literal. -/
def getCategoryColor (category : String) : Option String :=
  if truthyStr (colors.lookup category) then colors.lookup category
  else colors.lookup "No Data"

/-! The copy of the classifier in `MapView.jsx` (lines 79-114) -/

/-- The function `getGroundwaterCategory` of `MapView.jsx`. -/
def MapView.getGroundwaterCategory (toUpperCase : String → String)
    (data : Option RegionData) : String :=
  match data with
  | none => "No Data"
  | some d =>
    if !truthyNum d.groundWaterExtraction then "No Data"
    else if truthyStr d.category then capitalizeFirst toUpperCase (d.category.getD "")
    else
      let annualExtractable :=
        orOrZero d.annualExtractable d.annualExtractableResources
      if annualExtractable = 0 then "No Data"
      else
        let extractionRatio := (d.groundWaterExtraction.getD 0) / annualExtractable
        if extractionRatio > 1 then "Over Exploited"
        else if extractionRatio > 9 / 10 then "Critical"
        else if extractionRatio > 7 / 10 then "Semi Critical"
        else if ltNum d.rainfall 700 then "Saline"
        else "Safe"

/-- The object literal `colors` of `getCategoryColor` in `MapView.jsx`. -/
def MapView.colors : List (String × String) :=
  [("Safe", "#22c55e"), ("Semi-critical", "#3b82f6"), ("Semi Critical", "#3b82f6"),
    ("Critical", "#eab308"), ("Over Exploited", "#ef4444"), ("Saline", "#059669"),
    ("Hilly Area", "#6b7280"), ("No Data", "#d1d5db")]

/-- The function `getCategoryColor` of `MapView.jsx`. -/
def MapView.getCategoryColor (category : String) : Option String :=
  if truthyStr (MapView.colors.lookup category) then MapView.colors.lookup category
  else MapView.colors.lookup "No Data"

/-! Sample records used to instantiate the theorems -/

/-- A stand-in for `String.prototype.toUpperCase` that agrees with it on
strings of ASCII characters: it maps `a`..`z` to `A`..`Z`. -/
def asciiUpperCase (s : String) : String := String.mk (s.data.map Char.toUpper)

/-- Extraction 600 MCM against 500 MCM extractable, rainfall 650 mm. -/
def sampleOverdrawn : RegionData :=
  ⟨some 600, none, none, some 500, some 650, none, none, none, none⟩

/-- Extraction 400 MCM against 500 MCM extractable (ratio 0.8), rainfall 800 mm. -/
def sampleStressed : RegionData :=
  ⟨some 400, none, none, some 500, some 800, none, none, none, none⟩

/-- Extraction 300 MCM against 500 MCM extractable (ratio 0.6), rainfall 650 mm. -/
def sampleDry : RegionData :=
  ⟨some 300, none, none, some 500, some 650, none, none, none, none⟩

/-- A record with neither extraction nor extractable resources. -/
def sampleBlank : RegionData :=
  ⟨none, none, none, none, some 650, none, none, none, none⟩

/-- Extraction 300 MCM, extractable resources recorded as 0. -/
def sampleNoDenominator : RegionData :=
  ⟨some 300, none, none, some 0, some 650, none, none, none, none⟩

/-- Extraction 600 MCM against 500 MCM extractable with the upstream category
`"moderate"`, which is none of the seven names. -/
def sampleOverride : RegionData :=
  ⟨some 600, some "moderate", none, some 500, some 650, none, none, none, none⟩

/-- A record with extraction rate 90 % and nothing else. -/
def sampleHeavyUse : RegionData :=
  ⟨none, none, none, none, none, some 90, none, none, none⟩

/-- A one-point series: a level of 2 m in 2024. -/
def sampleShallow : List HistoricalPoint := [⟨2024, 2⟩]

/-- A record with extraction rate 30 % and nothing else. -/
def sampleLightUse : RegionData :=
  ⟨none, none, none, none, none, some 30, none, none, none⟩

/-- A one-point series: a level of 10 m in 2024. -/
def sampleDeep : List HistoricalPoint := [⟨2024, 10⟩]

/-- A record whose annual rainfall is recorded as 0 mm. -/
def sampleNoRain : RegionData :=
  ⟨none, none, none, none, some 0, none, none, none, none⟩

/-- A record with annual rainfall 1150 mm and nothing else. -/
def sampleWet : RegionData :=
  ⟨none, none, none, none, some 1150, none, none, none, none⟩

/-- A record whose extraction rate is recorded as 0 %. -/
def sampleIdle : RegionData :=
  ⟨none, none, none, none, none, some 0, none, none, none⟩

/-- Recharge 500 MCM, extraction 300 MCM, no natural discharge recorded. -/
def sampleBalance : RegionData :=
  ⟨some 300, none, none, none, none, none, some 500, none, none⟩

/-- Extraction rate 120 %, level 10 m, rainfall 750 mm. -/
def sampleRisk : RegionData :=
  ⟨none, none, none, none, some 750, some 120, none, none, some 10⟩

/-- The year 2025, `Math.random()` returning 0.5, and constant stand-ins for
`Math.sin` and `Math.cos`. -/
def sampleEnv : TrendEnv := ⟨2025, 1 / 2, fun _ => 0, fun _ => 1⟩

/-- Two supplied levels: 10.25 m in 2023 and 12 m in 2024. -/
def sampleTwoLevels : List HistoricalPoint := [⟨2023, 41 / 4⟩, ⟨2024, 12⟩]

/-- Five supplied levels, 2020 to 2024. -/
def sampleFiveLevels : List HistoricalPoint :=
  [⟨2020, 10⟩, ⟨2021, 11⟩, ⟨2022, 12⟩, ⟨2023, 13⟩, ⟨2024, 14⟩]

/-- Three supplied months with integer rainfall. -/
def sampleQuarter : List MonthlyRainfallPoint :=
  [⟨"Jan", 10⟩, ⟨"Feb", 21⟩, ⟨"Mar", 30⟩]

/-- `Math.random()` always returning 0.5 and constant stand-ins for `Math.sin`
and `Math.cos`. -/
def sampleRainEnv : RainEnv := ⟨fun _ => 1 / 2, fun _ => 0, fun _ => 1⟩

/-- No extraction recorded, the upstream category `"critical"` and 500 MCM
extractable. -/
def sampleOverrideNoExtraction : RegionData :=
  ⟨none, some "critical", none, some 500, some 650, none, none, none, none⟩

/-! Classifier: lemmas -/

theorem truthyNum_eq_true_iff (v : Option ℚ) :
    truthyNum v = true ↔ ∃ x, v = some x ∧ x ≠ 0 := by
  cases v with
  | none => simp [truthyNum]
  | some x => simp [truthyNum]

theorem truthyStr_eq_true_iff (v : Option String) :
    truthyStr v = true ↔ ∃ s, v = some s ∧ s ≠ "" := by
  cases v with
  | none => simp [truthyStr]
  | some s => simp [truthyStr]

/-- With extraction present, no override and a non-zero denominator the run is
the ratio cascade of lines 56-63. -/
theorem run_of_computed (toUpperCase : String → String) (d : RegionData)
    (hx : truthyNum d.groundWaterExtraction = true)
    (hc : truthyStr d.category = false)
    (hd : annualExtractableOf d ≠ 0) :
    getGroundwaterCategoryRun toUpperCase (some d) =
      if extractionRatioOf d > 1 then ⟨"Over Exploited", some (annualExtractableOf d)⟩
      else if extractionRatioOf d > 9 / 10 then ⟨"Critical", some (annualExtractableOf d)⟩
      else if extractionRatioOf d > 7 / 10 then
        ⟨"Semi Critical", some (annualExtractableOf d)⟩
      else if ltNum d.rainfall 700 then ⟨"Saline", some (annualExtractableOf d)⟩
      else ⟨"Safe", some (annualExtractableOf d)⟩ := by
  simp [getGroundwaterCategoryRun, hx, hc, hd, extractionRatioOf]

/-- A positive extraction ratio forces a present, non-zero extraction and a
non-zero denominator. -/
theorem guards_of_ratio_pos (d : RegionData) (h : 0 < extractionRatioOf d) :
    truthyNum d.groundWaterExtraction = true ∧ annualExtractableOf d ≠ 0 := by
  constructor
  · cases hg : d.groundWaterExtraction with
    | none => simp [extractionRatioOf, hg] at h
    | some x =>
      have : x ≠ 0 := by
        rintro rfl
        simp [extractionRatioOf, hg] at h
      simp [truthyNum, this]
  · intro h0
    simp [extractionRatioOf, h0] at h

/-! Classifier: the claims -/

/-- C1: for a record with non-zero extraction, non-zero extractable resources
and no category override, an extraction ratio above 1.0 gives the
Over-Exploited category (the literal `"Over Exploited"`), whatever value the
rainfall field is given. -/
theorem over_exploited_of_ratio_gt_one (toUpperCase : String → String) (d : RegionData)
    (hx : truthyNum d.groundWaterExtraction = true)
    (hc : truthyStr d.category = false)
    (hd : annualExtractableOf d ≠ 0)
    (hr : extractionRatioOf d > 1) (rainfall : Option ℚ) :
    getGroundwaterCategory toUpperCase (some { d with rainfall := rainfall }) = "Over Exploited" := by
  have hrun := run_of_computed toUpperCase { d with rainfall := rainfall } hx hc hd
  have hr' : extractionRatioOf { d with rainfall := rainfall } > 1 := hr
  rw [getGroundwaterCategory, hrun, if_pos hr']

/-- Witness of C1: extraction 600, extractable 500, rainfall 650. -/
theorem over_exploited_of_ratio_gt_one_witness :
    getGroundwaterCategory asciiUpperCase (some { sampleOverdrawn with rainfall := some 650 }) =
      "Over Exploited" :=
  over_exploited_of_ratio_gt_one asciiUpperCase sampleOverdrawn
    (by simp [sampleOverdrawn, truthyNum])
    (by simp [sampleOverdrawn, truthyStr])
    (by norm_num [sampleOverdrawn, annualExtractableOf, orOrZero])
    (by norm_num [sampleOverdrawn, extractionRatioOf, annualExtractableOf, orOrZero])
    (some 650)

/-- C2: with no category override and an extraction ratio in (0.7, 0.9] the
category is Semi-Critical (the literal `"Semi Critical"`) for every value of
the rainfall field, in particular for every rainfall of at least 700. -/
theorem semi_critical_of_ratio_band (toUpperCase : String → String) (d : RegionData)
    (hc : truthyStr d.category = false)
    (hlo : 7 / 10 < extractionRatioOf d) (hhi : extractionRatioOf d ≤ 9 / 10)
    (rainfall : Option ℚ) :
    getGroundwaterCategory toUpperCase (some { d with rainfall := rainfall }) = "Semi Critical" := by
  have hg := guards_of_ratio_pos d (by linarith)
  have hrun := run_of_computed toUpperCase { d with rainfall := rainfall } hg.1 hc hg.2
  have e : extractionRatioOf { d with rainfall := rainfall } = extractionRatioOf d := rfl
  rw [getGroundwaterCategory, hrun, e,
    if_neg (by linarith), if_neg (by linarith), if_pos hlo]

/-- Witness of C2: extraction 400, extractable 500, rainfall 800. -/
theorem semi_critical_of_ratio_band_witness :
    getGroundwaterCategory asciiUpperCase (some { sampleStressed with rainfall := some 800 }) =
      "Semi Critical" :=
  semi_critical_of_ratio_band asciiUpperCase sampleStressed
    (by simp [sampleStressed, truthyStr])
    (by norm_num [sampleStressed, extractionRatioOf, annualExtractableOf, orOrZero])
    (by norm_num [sampleStressed, extractionRatioOf, annualExtractableOf, orOrZero])
    (some 800)

/-- C3: with no category override, non-zero extraction and non-zero
extractable resources, an extraction ratio of at most 0.7 gives Saline when
the rainfall is below 700 and Safe otherwise (rainfall at least 700, or
absent). -/
theorem saline_or_safe_of_ratio_le (toUpperCase : String → String) (d : RegionData)
    (hc : truthyStr d.category = false)
    (hx : truthyNum d.groundWaterExtraction = true)
    (hd : annualExtractableOf d ≠ 0)
    (hr : extractionRatioOf d ≤ 7 / 10) :
    (∀ r, d.rainfall = some r → r < 700 → getGroundwaterCategory toUpperCase (some d) = "Saline") ∧
    (∀ r, d.rainfall = some r → 700 ≤ r → getGroundwaterCategory toUpperCase (some d) = "Safe") ∧
    (d.rainfall = none → getGroundwaterCategory toUpperCase (some d) = "Safe") := by
  have hrun : getGroundwaterCategory toUpperCase (some d) =
      if ltNum d.rainfall 700 then "Saline" else "Safe" := by
    rw [getGroundwaterCategory, run_of_computed toUpperCase d hx hc hd,
      if_neg (by linarith), if_neg (by linarith), if_neg (by linarith)]
    split <;> rfl
  refine ⟨fun r h1 h2 => ?_, fun r h1 h2 => ?_, fun h1 => ?_⟩
  · rw [hrun, h1]; simp [ltNum, h2]
  · rw [hrun, h1]; simp [ltNum, h2]
  · rw [hrun, h1]; simp [ltNum]

/-- Witness of C3: extraction 300, extractable 500, rainfall 650 is Saline. -/
theorem saline_or_safe_of_ratio_le_witness :
    getGroundwaterCategory asciiUpperCase (some sampleDry) = "Saline" :=
  (saline_or_safe_of_ratio_le asciiUpperCase sampleDry
    (by simp [sampleDry, truthyStr])
    (by simp [sampleDry, truthyNum])
    (by norm_num [sampleDry, annualExtractableOf, orOrZero])
    (by norm_num [sampleDry, extractionRatioOf, annualExtractableOf, orOrZero])).1
    650 rfl (by norm_num)

/-- C4: two records that differ only in rainfall and whose extraction ratio
exceeds 0.7 receive the same category; without an override that category is
Semi-Critical, Critical or Over-Exploited, so it is never Saline. -/
theorem rainfall_irrelevant_above_ratio (toUpperCase : String → String) (d : RegionData) (r₁ r₂ : Option ℚ)
    (h : 7 / 10 < extractionRatioOf d) :
    getGroundwaterCategory toUpperCase (some { d with rainfall := r₁ }) =
        getGroundwaterCategory toUpperCase (some { d with rainfall := r₂ }) ∧
      (truthyStr d.category = false →
        getGroundwaterCategory toUpperCase (some { d with rainfall := r₁ }) ∈
            ["Semi Critical", "Critical", "Over Exploited"] ∧
          getGroundwaterCategory toUpperCase (some { d with rainfall := r₁ }) ≠ "Saline") := by
  have hg := guards_of_ratio_pos d (by linarith)
  have key : ∀ r : Option ℚ, truthyStr d.category = false →
      getGroundwaterCategory toUpperCase (some { d with rainfall := r }) =
        if extractionRatioOf d > 1 then "Over Exploited"
        else if extractionRatioOf d > 9 / 10 then "Critical" else "Semi Critical" := by
    intro r hc
    have hrun := run_of_computed toUpperCase { d with rainfall := r } hg.1 hc hg.2
    have e : extractionRatioOf { d with rainfall := r } = extractionRatioOf d := rfl
    rw [getGroundwaterCategory, hrun, e]
    split_ifs <;> rfl
  constructor
  · cases hc : truthyStr d.category with
    | false => rw [key r₁ hc, key r₂ hc]
    | true =>
      simp [getGroundwaterCategory, getGroundwaterCategoryRun, hg.1, hc]
  · intro hc
    rw [key r₁ hc]
    split_ifs <;> simp

/-- Witness of C4: extraction 600 against 500 extractable, rainfall 650 or 1200. -/
theorem rainfall_irrelevant_above_ratio_witness :
    getGroundwaterCategory asciiUpperCase (some { sampleOverdrawn with rainfall := some 650 }) =
      getGroundwaterCategory asciiUpperCase (some { sampleOverdrawn with rainfall := some 1200 }) :=
  (rainfall_irrelevant_above_ratio asciiUpperCase sampleOverdrawn (some 650) (some 1200)
    (by norm_num [sampleOverdrawn, extractionRatioOf, annualExtractableOf, orOrZero])).1

/-- C5: the classifier answers No-Data (the literal `"No Data"`) when
extraction and extractable resources are both absent or zero; with no category
override it answers No-Data, without dividing, whenever the denominator is
zero; and on every input the denominator of a division it performs is
non-zero. -/
theorem no_data_guards (toUpperCase : String → String) (d : RegionData) :
    (truthyNum d.groundWaterExtraction = false → annualExtractableOf d = 0 →
        getGroundwaterCategory toUpperCase (some d) = "No Data") ∧
      (truthyStr d.category = false → annualExtractableOf d = 0 →
        getGroundwaterCategory toUpperCase (some d) = "No Data" ∧
          (getGroundwaterCategoryRun toUpperCase (some d)).divisor = none) ∧
      (∀ q, (getGroundwaterCategoryRun toUpperCase (some d)).divisor = some q → q ≠ 0) := by
  refine ⟨fun hx _ => ?_, fun hc h0 => ?_, fun q hq => ?_⟩
  · simp [getGroundwaterCategory, getGroundwaterCategoryRun, hx]
  · cases hx : truthyNum d.groundWaterExtraction <;>
      simp [getGroundwaterCategory, getGroundwaterCategoryRun, hx, hc, h0]
  · cases hx : truthyNum d.groundWaterExtraction with
    | false => simp [getGroundwaterCategoryRun, hx] at hq
    | true =>
      cases hc : truthyStr d.category with
      | true => simp [getGroundwaterCategoryRun, hx, hc] at hq
      | false =>
        by_cases hd : annualExtractableOf d = 0
        · simp [getGroundwaterCategoryRun, hx, hc, hd] at hq
        · rw [run_of_computed toUpperCase d hx hc hd] at hq
          split_ifs at hq <;> simp at hq <;> exact hq ▸ hd

/-- Witness of C5: a record with neither field, and a record with extraction
300 whose extractable resources are recorded as 0. -/
theorem no_data_guards_witness :
    getGroundwaterCategory asciiUpperCase (some sampleBlank) = "No Data" ∧
      (getGroundwaterCategory asciiUpperCase (some sampleNoDenominator) = "No Data" ∧
        (getGroundwaterCategoryRun asciiUpperCase (some sampleNoDenominator)).divisor = none) ∧
      (500 : ℚ) ≠ 0 :=
  ⟨(no_data_guards asciiUpperCase sampleBlank).1
      (by simp [sampleBlank, truthyNum])
      (by simp [sampleBlank, annualExtractableOf, orOrZero]),
    (no_data_guards asciiUpperCase sampleNoDenominator).2.1
      (by simp [sampleNoDenominator, truthyStr])
      (by simp [sampleNoDenominator, annualExtractableOf, orOrZero]),
    (no_data_guards asciiUpperCase sampleOverdrawn).2.2 500
      (by norm_num [sampleOverdrawn, getGroundwaterCategoryRun, truthyNum, truthyStr,
        annualExtractableOf, orOrZero])⟩

/-- C6: for a record with non-zero extraction and a non-empty explicit
category, the classifier returns `charAt(0).toUpperCase() + slice(1)` of that
category, that is, its first character upper-cased by
`String.prototype.toUpperCase` followed by the rest unchanged, whatever the
extractable resources (hence the ratio) and the rainfall are.  For a first
character outside the Basic Multilingual Plane `charAt(0)` is a lone
surrogate, upper-casing leaves it as it is and the category is returned
unchanged. -/
theorem override_takes_precedence (toUpperCase : String → String) (d : RegionData)
    (c : String)
    (hx : truthyNum d.groundWaterExtraction = true)
    (hcat : d.category = some c) (hne : c ≠ "")
    (annualExtractable annualExtractableResources rainfall : Option ℚ) :
    ∃ ch rest, c.data = ch :: rest ∧
      getGroundwaterCategory toUpperCase
          (some { d with
            annualExtractable := annualExtractable
            annualExtractableResources := annualExtractableResources
            rainfall := rainfall }) =
        if ch.toNat < 65536 then toUpperCase (String.mk [ch]) ++ String.mk rest else c := by
  have hdata : c.data ≠ [] := by
    intro h
    apply hne
    cases c
    simp_all
  obtain ⟨ch, rest, hcr⟩ := List.exists_cons_of_ne_nil hdata
  refine ⟨ch, rest, hcr, ?_⟩
  simp only [getGroundwaterCategory, getGroundwaterCategoryRun, hx, hcat, truthyStr,
    capitalizeFirst, Option.getD_some]
  simp [hne, hcr]

/-- Witness of C6: the override `"moderate"` on a record whose ratio is 1.2. -/
theorem override_takes_precedence_witness :
    ∃ ch rest, "moderate".data = ch :: rest ∧
      getGroundwaterCategory asciiUpperCase
          (some { sampleOverride with
            annualExtractable := none
            annualExtractableResources := some 500
            rainfall := some 650 }) =
        if ch.toNat < 65536 then asciiUpperCase (String.mk [ch]) ++ String.mk rest
        else "moderate" :=
  override_takes_precedence asciiUpperCase sampleOverride "moderate"
    (by simp [sampleOverride, truthyNum]) rfl (by decide) none (some 500) (some 650)

/-- Counterexample to C7: with the upstream category `"moderate"` the
classifier returns `"Moderate"`, which is none of the seven categories in
either spelling. -/
theorem category_outside_seven :
    getGroundwaterCategory asciiUpperCase (some sampleOverride) = "Moderate" ∧
      getGroundwaterCategory asciiUpperCase (some sampleOverride) ∉ specCategories ∧
      getGroundwaterCategory asciiUpperCase (some sampleOverride) ∉ sourceCategories := by
  have h : getGroundwaterCategory asciiUpperCase (some sampleOverride) = "Moderate" := by
    simp only [getGroundwaterCategory, getGroundwaterCategoryRun, sampleOverride, truthyNum,
      truthyStr, capitalizeFirst]
    decide
  rw [h]
  decide

/-- C7, amended: on every input the classifier returns either one of the
categories Safe, Semi-Critical, Critical, Over-Exploited, Saline, No-Data (in
the spelling of the source), or, when extraction is non-zero and a non-empty
upstream category is supplied, `charAt(0).toUpperCase() + slice(1)` of that
upstream category, whatever string it is. -/
theorem category_range (toUpperCase : String → String) (data : Option RegionData) :
    getGroundwaterCategory toUpperCase data ∈
        ["Safe", "Semi Critical", "Critical", "Over Exploited", "Saline", "No Data"] ∨
      ∃ d c, data = some d ∧ truthyNum d.groundWaterExtraction = true ∧
        d.category = some c ∧ c ≠ "" ∧
        getGroundwaterCategory toUpperCase data = capitalizeFirst toUpperCase c := by
  cases data with
  | none => left; simp [getGroundwaterCategory, getGroundwaterCategoryRun]
  | some d =>
    cases hx : truthyNum d.groundWaterExtraction with
    | false => left; simp [getGroundwaterCategory, getGroundwaterCategoryRun, hx]
    | true =>
      cases hc : truthyStr d.category with
      | true =>
        right
        obtain ⟨c, hcat, hne⟩ := (truthyStr_eq_true_iff d.category).1 hc
        refine ⟨d, c, rfl, hx, hcat, hne, ?_⟩
        rw [hcat] at hc
        simp [getGroundwaterCategory, getGroundwaterCategoryRun, hx, hc, hcat]
      | false =>
        left
        by_cases hd : annualExtractableOf d = 0
        · simp [getGroundwaterCategory, getGroundwaterCategoryRun, hx, hc, hd]
        · rw [getGroundwaterCategory, run_of_computed toUpperCase d hx hc hd]
          split_ifs <;> simp

/-! Rounding: lemmas -/

theorem roundCents_mono {x y : ℚ} (h : x ≤ y) : roundCents x ≤ roundCents y := by
  unfold roundCents
  by_cases hx : x < 0
  · by_cases hy : y < 0
    · rw [if_pos hx, if_pos hy]
      have hf : ⌊-y * 100 + 1 / 2⌋ ≤ ⌊-x * 100 + 1 / 2⌋ := Int.floor_mono (by linarith)
      have hq : ((⌊-y * 100 + 1 / 2⌋ : ℤ) : ℚ) ≤ ((⌊-x * 100 + 1 / 2⌋ : ℤ) : ℚ) := by
        exact_mod_cast hf
      linarith
    · rw [if_pos hx, if_neg hy]
      have h1 : (0 : ℤ) ≤ ⌊-x * 100 + 1 / 2⌋ := Int.floor_nonneg.2 (by linarith)
      have h2 : (0 : ℤ) ≤ ⌊y * 100 + 1 / 2⌋ := Int.floor_nonneg.2 (by linarith)
      have h1q : (0 : ℚ) ≤ ((⌊-x * 100 + 1 / 2⌋ : ℤ) : ℚ) := by exact_mod_cast h1
      have h2q : (0 : ℚ) ≤ ((⌊y * 100 + 1 / 2⌋ : ℤ) : ℚ) := by exact_mod_cast h2
      linarith
  · have hy : ¬ y < 0 := by linarith
    rw [if_neg hx, if_neg hy]
    have hf : ⌊x * 100 + 1 / 2⌋ ≤ ⌊y * 100 + 1 / 2⌋ := Int.floor_mono (by linarith)
    have hq : ((⌊x * 100 + 1 / 2⌋ : ℤ) : ℚ) ≤ ((⌊y * 100 + 1 / 2⌋ : ℤ) : ℚ) := by
      exact_mod_cast hf
    linarith

theorem roundCents_near (x : ℚ) : x - 1 / 200 ≤ roundCents x ∧ roundCents x ≤ x + 1 / 200 := by
  unfold roundCents
  by_cases hx : x < 0
  · rw [if_pos hx]
    have h1 := Int.floor_le (-x * 100 + 1 / 2)
    have h2 := Int.lt_floor_add_one (-x * 100 + 1 / 2)
    constructor <;> linarith
  · rw [if_neg hx]
    have h1 := Int.floor_le (x * 100 + 1 / 2)
    have h2 := Int.lt_floor_add_one (x * 100 + 1 / 2)
    constructor <;> linarith

/-- A value whose hundredfold is an integer is left unchanged. -/
theorem roundCents_of_int (k : ℤ) : roundCents ((k : ℚ) / 100) = (k : ℚ) / 100 := by
  unfold roundCents
  by_cases hx : (k : ℚ) / 100 < 0
  · rw [if_pos hx]
    have : ⌊-((k : ℚ) / 100) * 100 + 1 / 2⌋ = -k := by
      rw [Int.floor_eq_iff]
      push_cast
      constructor <;> linarith
    rw [this]; push_cast; ring
  · rw [if_neg hx]
    have : ⌊(k : ℚ) / 100 * 100 + 1 / 2⌋ = k := by
      rw [Int.floor_eq_iff]
      constructor <;> linarith
    rw [this]

theorem toFixed2_mono {x y : ℚ} (h : x ≤ y) : toFixed2 x ≤ toFixed2 y := by
  have hbig : roundCents ((10 : ℚ) ^ 21) = (10 : ℚ) ^ 21 := by
    have := roundCents_of_int ((10 : ℤ) ^ 23)
    norm_num at this ⊢
    exact this
  have hsmall : roundCents (-(10 : ℚ) ^ 21) = -(10 : ℚ) ^ 21 := by
    have := roundCents_of_int (-(10 : ℤ) ^ 23)
    norm_num at this ⊢
    exact this
  unfold toFixed2
  by_cases hx : (10 : ℚ) ^ 21 ≤ |x|
  · by_cases hy : (10 : ℚ) ^ 21 ≤ |y|
    · rw [if_pos hx, if_pos hy]; exact h
    · rw [if_pos hx, if_neg hy]
      have hy' := abs_lt.1 (not_le.1 hy)
      have hxneg : x ≤ -(10 : ℚ) ^ 21 := by
        rcases le_abs'.1 hx with h1 | h1
        · exact h1
        · linarith
      calc x ≤ -(10 : ℚ) ^ 21 := hxneg
        _ = roundCents (-(10 : ℚ) ^ 21) := hsmall.symm
        _ ≤ roundCents y := roundCents_mono hy'.1.le
  · by_cases hy : (10 : ℚ) ^ 21 ≤ |y|
    · rw [if_neg hx, if_pos hy]
      have hx' := abs_lt.1 (not_le.1 hx)
      have hypos : (10 : ℚ) ^ 21 ≤ y := by
        rcases le_abs'.1 hy with h1 | h1
        · linarith
        · exact h1
      calc roundCents x ≤ roundCents ((10 : ℚ) ^ 21) := roundCents_mono hx'.2.le
        _ = (10 : ℚ) ^ 21 := hbig
        _ ≤ y := hypos
    · rw [if_neg hx, if_neg hy]; exact roundCents_mono h

theorem toFixed2_near (x : ℚ) : x - 1 / 200 ≤ toFixed2 x ∧ toFixed2 x ≤ x + 1 / 200 := by
  unfold toFixed2
  split_ifs
  · constructor <;> linarith
  · exact roundCents_near x

theorem toFixed2_one : toFixed2 1 = 1 := by
  have h := roundCents_of_int 100
  have h1 : ¬ ((10 : ℚ) ^ 21 ≤ |(1 : ℚ)|) := by norm_num
  rw [toFixed2, if_neg h1]
  norm_num at h
  exact h

/-! Projection engine: lemmas -/

theorem getClimateImpact_offset (currentYear : ℤ) (i : ℕ) :
    getClimateImpact currentYear (currentYear + (i : ℤ)) = -(1 / 50) * (i : ℚ) := by
  simp [getClimateImpact]

theorem one_le_noChangeAt (l f : ℚ) (y : ℤ) (i : ℕ) : 1 ≤ noChangeAt l f y i :=
  le_max_left _ _

theorem uncertaintyFactor_bounds {i : ℕ} (hi : i < 6) :
    0 ≤ uncertaintyFactor i ∧ uncertaintyFactor i ≤ 1 / 4 := by
  unfold uncertaintyFactor
  have h1 : (0 : ℚ) ≤ (i : ℚ) := Nat.cast_nonneg i
  have h2 : (i : ℚ) ≤ 5 := by exact_mod_cast Nat.lt_succ_iff.1 hi
  constructor <;> linarith

/-- Every element of the projection is the point of some horizon index below 6,
anchored at the last point of the series. -/
theorem mem_getProjectionData {data : RegionData} {historicalData : List HistoricalPoint}
    {p : ProjectionPoint} (hp : p ∈ getProjectionData data historicalData) :
    ∃ last i, historicalData.getLast? = some last ∧ i < 6 ∧
      p = projectionPoint last.level (projectionFactorOf data historicalData) last.year i := by
  unfold getProjectionData at hp
  cases hl : historicalData.getLast? with
  | none => simp [hl] at hp
  | some last =>
    simp only [hl, List.mem_map, List.mem_range] at hp
    obtain ⟨i, hi, rfl⟩ := hp
    exact ⟨last, i, rfl, hi, rfl⟩

theorem getProjectionData_length {data : RegionData} {historicalData : List HistoricalPoint}
    (h : historicalData ≠ []) : (getProjectionData data historicalData).length = 6 := by
  unfold getProjectionData
  cases hl : historicalData.getLast? with
  | none => exact absurd (List.getLast?_eq_none_iff.1 hl) h
  | some last => simp

theorem getProjectionData_getElem {data : RegionData} {historicalData : List HistoricalPoint}
    {last : HistoricalPoint} (hl : historicalData.getLast? = some last) (i : ℕ)
    (hi : i < (getProjectionData data historicalData).length) :
    (getProjectionData data historicalData)[i] =
      projectionPoint last.level (projectionFactorOf data historicalData) last.year i := by
  simp [getProjectionData, hl]

/-- One step of the band: if the rounded business-as-usual value does not fall
while the relative uncertainty grows by 0.05, the rounded width does not
shrink. -/
theorem band_step (n n' u : ℚ) (hn : 1 ≤ n) (hn' : 1 ≤ n') (hu0 : 0 ≤ u) (hu : u ≤ 1 / 5)
    (h : toFixed2 n ≤ toFixed2 n') :
    toFixed2 (n * (1 + u)) - toFixed2 (max 1 (n * (1 - u))) ≤
      toFixed2 (n' * (1 + (u + 1 / 20))) - toFixed2 (max 1 (n' * (1 - (u + 1 / 20)))) := by
  have hnn : n - 1 / 100 ≤ n' := by
    have h1 := (toFixed2_near n).1
    have h2 := (toFixed2_near n').2
    linarith
  have hprod : 0 ≤ (n' - n + 1 / 100) * u := mul_nonneg (by linarith) hu0
  have hprod' : 0 ≤ (n - 1) * u := mul_nonneg (by linarith) hu0
  have hprod'' : 0 ≤ (n - 1) * (1 / 5 - u) := mul_nonneg (by linarith) (by linarith)
  by_cases hcl : n' * (1 - (u + 1 / 20)) ≤ 1
  · rw [max_eq_left hcl, toFixed2_one]
    have hL : (1 : ℚ) ≤ toFixed2 (max 1 (n * (1 - u))) := by
      have := toFixed2_mono (le_max_left (1 : ℚ) (n * (1 - u)))
      rwa [toFixed2_one] at this
    have hU : toFixed2 (n * (1 + u)) ≤ toFixed2 (n' * (1 + (u + 1 / 20))) := by
      apply toFixed2_mono
      nlinarith
    linarith
  · rw [max_eq_right (not_le.1 hcl).le]
    have a1 := (toFixed2_near (n * (1 + u))).2
    have a2 := (toFixed2_near (max 1 (n * (1 - u)))).1
    have a3 := (toFixed2_near (n' * (1 + (u + 1 / 20)))).1
    have a4 := (toFixed2_near (n' * (1 - (u + 1 / 20)))).2
    have a5 : n * (1 - u) ≤ max 1 (n * (1 - u)) := le_max_right _ _
    nlinarith

/-- One step of the band above the floor: with `k` the horizon index, if the
rounded lower bound of the next point exceeds 1 and `(k + 1)` times the next
rounded business-as-usual value exceeds `k` times the current one by 0.3, the
rounded width does not shrink. -/
theorem band_step_above_floor (n n' k : ℚ) (hk0 : 0 ≤ k) (hk4 : k ≤ 4)
    (hlow : 1 < toFixed2 (max 1 (n' * (1 - (k / 20 + 1 / 20)))))
    (hgrow : k * toFixed2 n + 3 / 10 ≤ (k + 1) * toFixed2 n') :
    toFixed2 (n * (1 + k / 20)) - toFixed2 (max 1 (n * (1 - k / 20))) ≤
      toFixed2 (n' * (1 + (k / 20 + 1 / 20))) -
        toFixed2 (max 1 (n' * (1 - (k / 20 + 1 / 20)))) := by
  have hun : 1 < n' * (1 - (k / 20 + 1 / 20)) := by
    by_contra hcl
    rw [max_eq_left (not_lt.1 hcl), toFixed2_one] at hlow
    exact lt_irrefl _ hlow
  rw [max_eq_right hun.le]
  have a1 := (toFixed2_near (n * (1 + k / 20))).2
  have a2 := (toFixed2_near (max 1 (n * (1 - k / 20)))).1
  have a3 := (toFixed2_near (n' * (1 + (k / 20 + 1 / 20)))).1
  have a4 := (toFixed2_near (n' * (1 - (k / 20 + 1 / 20)))).2
  have a5 : n * (1 - k / 20) ≤ max 1 (n * (1 - k / 20)) := le_max_right _ _
  have b1 : 0 ≤ k * (n + 1 / 200 - toFixed2 n) :=
    mul_nonneg hk0 (by linarith [(toFixed2_near n).2] )
  have b2 : 0 ≤ (k + 1) * (n' + 1 / 200 - toFixed2 n') :=
    mul_nonneg (by linarith) (by linarith [(toFixed2_near n').2])
  have b3 : 0 ≤ k * (toFixed2 n - (n - 1 / 200)) :=
    mul_nonneg hk0 (by linarith [(toFixed2_near n).1])
  nlinarith

/-- The value printed for a non-negative number below `10^21`, given the
integer number of cents nearest to it. -/
theorem toFixed2_eval (x : ℚ) (k : ℤ) (h0 : 0 ≤ x) (hb : x < (10 : ℚ) ^ 21)
    (h1 : (k : ℚ) ≤ x * 100 + 1 / 2) (h2 : x * 100 + 1 / 2 < (k : ℚ) + 1) :
    toFixed2 x = (k : ℚ) / 100 := by
  have hx : ¬ ((10 : ℚ) ^ 21 ≤ |x|) := by
    rw [abs_of_nonneg h0]; exact not_le.2 hb
  have hf : ⌊x * 100 + 1 / 2⌋ = k := Int.floor_eq_iff.2 ⟨h1, h2⟩
  rw [toFixed2, if_neg hx, roundCents, if_neg (not_lt.2 h0), hf]

theorem projectionFactorOf_sampleHeavyUse :
    projectionFactorOf sampleHeavyUse sampleShallow = -(2 / 5) := by
  norm_num [projectionFactorOf, historicalSlopeOf, historicalSlopeRun, divide, sampleShallow, extractionImpact,
    extractionRateOf, rainfallFactorOf, rechargeBalanceOf, sampleHeavyUse, truthyNum]

theorem getProjectionData_sampleHeavyUse :
    getProjectionData sampleHeavyUse sampleShallow =
      (List.range 6).map
        (projectionPoint 2 (projectionFactorOf sampleHeavyUse sampleShallow) 2024) := rfl


/-- The band width of a point from the cents nearest to its two raw bounds. -/
theorem bandWidth_eval (l f : ℚ) (y : ℤ) (i : ℕ) (up lo : ℚ) (ku kl : ℤ)
    (hup : noChangeUpperAt l f y i = up) (hlo : noChangeLowerAt l f y i = lo)
    (hu0 : 0 ≤ up) (hub : up < (10 : ℚ) ^ 21)
    (hu1 : (ku : ℚ) ≤ up * 100 + 1 / 2) (hu2 : up * 100 + 1 / 2 < (ku : ℚ) + 1)
    (hl0 : 0 ≤ lo) (hlb : lo < (10 : ℚ) ^ 21)
    (hl1 : (kl : ℚ) ≤ lo * 100 + 1 / 2) (hl2 : lo * 100 + 1 / 2 < (kl : ℚ) + 1) :
    bandWidth (projectionPoint l f y i) = (ku : ℚ) / 100 - (kl : ℚ) / 100 := by
  simp only [bandWidth, projectionPoint, hup, hlo]
  rw [toFixed2_eval up ku hu0 hub hu1 hu2, toFixed2_eval lo kl hl0 hlb hl1 hl2]

theorem bandWidths_sampleHeavyUse :
    bandWidths sampleHeavyUse sampleShallow = [0, 4 / 25, 6 / 25, 3 / 20, 1 / 5, 1 / 4] := by
  have w0 := bandWidth_eval 2 (-(2 / 5)) 2024 0 2 2 200 200
    (by norm_num [noChangeUpperAt, noChangeAt, getClimateImpact, uncertaintyFactor])
    (by norm_num [noChangeLowerAt, noChangeAt, getClimateImpact, uncertaintyFactor])
    (by norm_num) (by norm_num) (by norm_num) (by norm_num)
    (by norm_num) (by norm_num) (by norm_num) (by norm_num)
  have w1 := bandWidth_eval 2 (-(2 / 5)) 2024 1 (1659 / 1000) (1501 / 1000) 166 150
    (by norm_num [noChangeUpperAt, noChangeAt, getClimateImpact, uncertaintyFactor])
    (by norm_num [noChangeLowerAt, noChangeAt, getClimateImpact, uncertaintyFactor])
    (by norm_num) (by norm_num) (by norm_num) (by norm_num)
    (by norm_num) (by norm_num) (by norm_num) (by norm_num)
  have w2 := bandWidth_eval 2 (-(2 / 5)) 2024 2 (319 / 250) (261 / 250) 128 104
    (by norm_num [noChangeUpperAt, noChangeAt, getClimateImpact, uncertaintyFactor])
    (by norm_num [noChangeLowerAt, noChangeAt, getClimateImpact, uncertaintyFactor])
    (by norm_num) (by norm_num) (by norm_num) (by norm_num)
    (by norm_num) (by norm_num) (by norm_num) (by norm_num)
  have w3 := bandWidth_eval 2 (-(2 / 5)) 2024 3 (23 / 20) 1 115 100
    (by norm_num [noChangeUpperAt, noChangeAt, getClimateImpact, uncertaintyFactor])
    (by norm_num [noChangeLowerAt, noChangeAt, getClimateImpact, uncertaintyFactor])
    (by norm_num) (by norm_num) (by norm_num) (by norm_num)
    (by norm_num) (by norm_num) (by norm_num) (by norm_num)
  have w4 := bandWidth_eval 2 (-(2 / 5)) 2024 4 (6 / 5) 1 120 100
    (by norm_num [noChangeUpperAt, noChangeAt, getClimateImpact, uncertaintyFactor])
    (by norm_num [noChangeLowerAt, noChangeAt, getClimateImpact, uncertaintyFactor])
    (by norm_num) (by norm_num) (by norm_num) (by norm_num)
    (by norm_num) (by norm_num) (by norm_num) (by norm_num)
  have w5 := bandWidth_eval 2 (-(2 / 5)) 2024 5 (5 / 4) 1 125 100
    (by norm_num [noChangeUpperAt, noChangeAt, getClimateImpact, uncertaintyFactor])
    (by norm_num [noChangeLowerAt, noChangeAt, getClimateImpact, uncertaintyFactor])
    (by norm_num) (by norm_num) (by norm_num) (by norm_num)
    (by norm_num) (by norm_num) (by norm_num) (by norm_num)
  rw [bandWidths, getProjectionData_sampleHeavyUse, projectionFactorOf_sampleHeavyUse]
  simp only [List.range, List.range.loop, List.map]
  rw [w0, w1, w2, w3, w4, w5]
  norm_num

/-! Projection engine: the claims -/

/-- C8: every point produced by `getProjectionData` satisfies
noChangeLower ≤ noChange ≤ noChangeUpper, and a non-empty series produces
exactly 6 points. -/
theorem band_contains_noChange (data : RegionData) (historicalData : List HistoricalPoint) :
    (historicalData ≠ [] → (getProjectionData data historicalData).length = 6) ∧
      ∀ p ∈ getProjectionData data historicalData,
        p.noChangeLower ≤ p.noChange ∧ p.noChange ≤ p.noChangeUpper := by
  refine ⟨getProjectionData_length, fun p hp => ?_⟩
  obtain ⟨last, i, -, hi, rfl⟩ := mem_getProjectionData hp
  have hn := one_le_noChangeAt last.level (projectionFactorOf data historicalData) last.year i
  have hu := (uncertaintyFactor_bounds hi).1
  have hprod := mul_nonneg (le_trans zero_le_one hn) hu
  constructor
  · apply toFixed2_mono
    unfold noChangeLowerAt
    exact max_le hn (by linarith)
  · apply toFixed2_mono
    unfold noChangeUpperAt
    linarith

/-- Witness of C8: the point of horizon index 3 for a level of 2 m in 2024 and
an extraction rate of 90 %. -/
theorem band_contains_noChange_witness :
    (projectionPoint 2 (projectionFactorOf sampleHeavyUse sampleShallow) 2024 3).noChangeLower ≤
        (projectionPoint 2 (projectionFactorOf sampleHeavyUse sampleShallow) 2024 3).noChange ∧
      (projectionPoint 2 (projectionFactorOf sampleHeavyUse sampleShallow) 2024 3).noChange ≤
        (projectionPoint 2 (projectionFactorOf sampleHeavyUse sampleShallow) 2024 3).noChangeUpper :=
  (band_contains_noChange sampleHeavyUse sampleShallow).2 _
    (getProjectionData_sampleHeavyUse ▸ List.mem_map.2 ⟨3, by simp, rfl⟩)

/-- Counterexample to C9: for a level of 2 m in 2024 and an extraction rate of
90 % the band widths at horizon indices 0..5 are 0, 0.16, 0.24, 0.15, 0.20,
0.25: the width falls from index 2 to index 3. -/
theorem band_width_not_monotone :
    bandWidths sampleHeavyUse sampleShallow = [0, 4 / 25, 6 / 25, 3 / 20, 1 / 5, 1 / 4] ∧
      ¬ (bandWidths sampleHeavyUse sampleShallow).Chain' (· ≤ ·) := by
  refine ⟨bandWidths_sampleHeavyUse, ?_⟩
  rw [bandWidths_sampleHeavyUse]
  norm_num

/-- C9, amended: for every input and every two consecutive points `p`, `q` of
the projection (horizon indices `i` and `i + 1`), the width of the band
(noChangeUpper − noChangeLower) does not shrink from `p` to `q` if the
business-as-usual value does not fall from `p` to `q`, or if the lower bound of
`q` is above the floor of 1 and (i + 1)·q.noChange ≥ i·p.noChange + 0.3 (the
width being 0.1·i·noChange above the floor; this covers the slowly falling
projections, among them the default one). -/
theorem band_width_step (data : RegionData) (historicalData : List HistoricalPoint)
    (i : ℕ) (p q : ProjectionPoint)
    (hp : (getProjectionData data historicalData)[i]? = some p)
    (hq : (getProjectionData data historicalData)[i + 1]? = some q)
    (h : p.noChange ≤ q.noChange ∨
      (1 < q.noChangeLower ∧
        (i : ℚ) * p.noChange + 3 / 10 ≤ ((i : ℚ) + 1) * q.noChange)) :
    bandWidth p ≤ bandWidth q := by
  obtain ⟨hi1, hq'⟩ := List.getElem?_eq_some_iff.1 hq
  have hi0 : i < (getProjectionData data historicalData).length := by omega
  have hp' : (getProjectionData data historicalData)[i] = p := by
    have := List.getElem?_eq_getElem hi0
    rw [this] at hp
    exact Option.some.inj hp
  cases hl : historicalData.getLast? with
  | none =>
    simp [getProjectionData, hl] at hi1
  | some last =>
    have hlen : (getProjectionData data historicalData).length = 6 := by
      simp [getProjectionData, hl]
    rw [getProjectionData_getElem hl] at hp' hq'
    subst hp' hq'
    have hu := uncertaintyFactor_bounds (show i + 1 < 6 by omega)
    have hu0 := (uncertaintyFactor_bounds (show i < 6 by omega)).1
    rcases h with hmono | ⟨hlow, hgrow⟩
    · have hstep : uncertaintyFactor (i + 1) = uncertaintyFactor i + 1 / 20 := by
        unfold uncertaintyFactor; push_cast; ring
      simp only [bandWidth, projectionPoint, noChangeUpperAt, noChangeLowerAt, hstep]
        at hmono ⊢
      exact band_step _ _ _ (one_le_noChangeAt _ _ _ _) (one_le_noChangeAt _ _ _ _) hu0
        (by linarith [hu.2]) hmono
    · have hk : uncertaintyFactor i = (i : ℚ) / 20 := by
        unfold uncertaintyFactor; ring
      have hstep : uncertaintyFactor (i + 1) = (i : ℚ) / 20 + 1 / 20 := by
        unfold uncertaintyFactor; push_cast; ring
      have hi4 : (i : ℚ) ≤ 4 := by
        have : i ≤ 4 := by omega
        exact_mod_cast this
      simp only [bandWidth, projectionPoint, noChangeUpperAt, noChangeLowerAt, hstep, hk]
        at hlow hgrow ⊢
      exact band_step_above_floor _ _ _ (Nat.cast_nonneg i) hi4 hlow hgrow

/-- Witness of C9 amended: horizon indices 2 and 3 for a level of 10 m in 2024
and an extraction rate of 90 %, where business-as-usual falls from 9.16 to
8.74 and the width grows from 1.84 to 2.62. -/
theorem band_width_step_witness :
    bandWidth (projectionPoint 10 (projectionFactorOf sampleHeavyUse sampleDeep) 2024 2) ≤
      bandWidth (projectionPoint 10 (projectionFactorOf sampleHeavyUse sampleDeep) 2024 3) :=
  band_width_step sampleHeavyUse sampleDeep 2 _ _ rfl rfl
    (Or.inr (by
      have hpf : projectionFactorOf sampleHeavyUse sampleDeep = -(2 / 5) := by
        norm_num [projectionFactorOf, historicalSlopeOf, historicalSlopeRun, divide,
          sampleDeep, extractionImpact, extractionRateOf, rainfallFactorOf,
          rechargeBalanceOf, sampleHeavyUse, truthyNum]
      have h2 : noChangeAt 10 (-(2 / 5)) 2024 2 = 229 / 25 := by
        norm_num [noChangeAt, getClimateImpact]
      have h3 : noChangeAt 10 (-(2 / 5)) 2024 3 = 437 / 50 := by
        norm_num [noChangeAt, getClimateImpact]
      have hl3 : noChangeLowerAt 10 (-(2 / 5)) 2024 3 = 7429 / 1000 := by
        norm_num [noChangeLowerAt, noChangeAt, getClimateImpact, uncertaintyFactor]
      simp only [projectionPoint, hpf, h2, h3, hl3]
      have n2 := (toFixed2_near (229 / 25)).2
      have n3 := (toFixed2_near (437 / 50)).1
      have l3 := (toFixed2_near (7429 / 1000)).1
      constructor
      · linarith
      · push_cast
        linarith))

/-- C10: whenever the computed projectionFactor is negative, every point of
the projection has worstCase ≤ noChange. -/
theorem worstCase_le_noChange (data : RegionData) (historicalData : List HistoricalPoint)
    (hneg : projectionFactorOf data historicalData < 0) :
    ∀ p ∈ getProjectionData data historicalData, p.worstCase ≤ p.noChange := by
  intro p hp
  obtain ⟨last, i, -, -, rfl⟩ := mem_getProjectionData hp
  apply toFixed2_mono
  unfold worstCaseAt noChangeAt
  rw [getClimateImpact_offset]
  have hi : (0 : ℚ) ≤ (i : ℚ) := Nat.cast_nonneg i
  have hprod : projectionFactorOf data historicalData * (i : ℚ) ≤ 0 :=
    mul_nonpos_of_nonpos_of_nonneg hneg.le hi
  apply max_le_max le_rfl
  linarith

/-- Witness of C10: the point of horizon index 3 for a level of 2 m in 2024 and
an extraction rate of 90 %, whose projectionFactor is −0.4. -/
theorem worstCase_le_noChange_witness :
    projectionFactorOf sampleHeavyUse sampleShallow < 0 ∧
      (projectionPoint 2 (projectionFactorOf sampleHeavyUse sampleShallow) 2024 3).worstCase ≤
        (projectionPoint 2 (projectionFactorOf sampleHeavyUse sampleShallow) 2024 3).noChange :=
  ⟨by rw [projectionFactorOf_sampleHeavyUse]; norm_num,
    worstCase_le_noChange sampleHeavyUse sampleShallow
      (by rw [projectionFactorOf_sampleHeavyUse]; norm_num) _
      (getProjectionData_sampleHeavyUse ▸ List.mem_map.2 ⟨3, by simp, rfl⟩)⟩

/-- Counterexample to C11: for a level of 2 m in 2024 and an extraction rate of
90 %, at horizon index 3 business-as-usual is 1 and
businessAsUsual·(1 − 0.05·3) is 0.85, yet the lower bound is 1, before rounding
and in the returned point. -/
theorem lower_bound_is_clamped :
    noChangeAt 2 (projectionFactorOf sampleHeavyUse sampleShallow) 2024 3 *
        (1 - 1 / 20 * 3) = 17 / 20 ∧
      noChangeLowerAt 2 (projectionFactorOf sampleHeavyUse sampleShallow) 2024 3 = 1 ∧
      (getProjectionData sampleHeavyUse sampleShallow)[3]?.map (fun p => p.noChangeLower) =
        some 1 := by
  have hn : noChangeAt 2 (-(2 / 5)) 2024 3 = 1 := by
    norm_num [noChangeAt, getClimateImpact]
  have hlo : noChangeLowerAt 2 (-(2 / 5)) 2024 3 = 1 := by
    norm_num [noChangeLowerAt, noChangeAt, getClimateImpact, uncertaintyFactor]
  refine ⟨?_, ?_, ?_⟩
  · rw [projectionFactorOf_sampleHeavyUse, hn]; norm_num
  · rw [projectionFactorOf_sampleHeavyUse, hlo]
  · rw [getProjectionData_sampleHeavyUse, projectionFactorOf_sampleHeavyUse]
    simp [projectionPoint, hlo, toFixed2_one]

/-- C11, amended: for every input and every horizon index `i` in 0..5, with
`n` the business-as-usual value before rounding, the bounds before rounding
are upper = n·(1 + 0.05·i) and lower = max(1, n·(1 − 0.05·i)), the lower bound
being n·(1 − 0.05·i) itself whenever that is at least 1; the returned
noChange, noChangeUpper and noChangeLower are these values rounded to 2
decimals, each within 0.005 of the value it rounds. -/
theorem band_bounds (data : RegionData) (historicalData : List HistoricalPoint)
    (last : HistoricalPoint) (i : ℕ) (p : ProjectionPoint)
    (hl : historicalData.getLast? = some last)
    (hp : (getProjectionData data historicalData)[i]? = some p) :
    i < 6 ∧
      noChangeUpperAt last.level (projectionFactorOf data historicalData) last.year i =
        noChangeAt last.level (projectionFactorOf data historicalData) last.year i *
          (1 + 1 / 20 * (i : ℚ)) ∧
      noChangeLowerAt last.level (projectionFactorOf data historicalData) last.year i =
        max 1 (noChangeAt last.level (projectionFactorOf data historicalData) last.year i *
          (1 - 1 / 20 * (i : ℚ))) ∧
      (1 ≤ noChangeAt last.level (projectionFactorOf data historicalData) last.year i *
            (1 - 1 / 20 * (i : ℚ)) →
        noChangeLowerAt last.level (projectionFactorOf data historicalData) last.year i =
          noChangeAt last.level (projectionFactorOf data historicalData) last.year i *
            (1 - 1 / 20 * (i : ℚ))) ∧
      |p.noChange -
          noChangeAt last.level (projectionFactorOf data historicalData) last.year i| ≤
        1 / 200 ∧
      |p.noChangeUpper -
          noChangeUpperAt last.level (projectionFactorOf data historicalData) last.year i| ≤
        1 / 200 ∧
      |p.noChangeLower -
          noChangeLowerAt last.level (projectionFactorOf data historicalData) last.year i| ≤
        1 / 200 := by
  obtain ⟨hi, hp'⟩ := List.getElem?_eq_some_iff.1 hp
  rw [getProjectionData_getElem hl] at hp'
  have hlen : (getProjectionData data historicalData).length = 6 := by
    simp [getProjectionData, hl]
  subst hp'
  have hnear : ∀ x : ℚ, |toFixed2 x - x| ≤ 1 / 200 := by
    intro x
    have h := toFixed2_near x
    rw [abs_le]
    constructor <;> linarith [h.1, h.2]
  refine ⟨by omega, rfl, rfl, fun h => ?_, hnear _, hnear _, hnear _⟩
  simp only [noChangeLowerAt, uncertaintyFactor]
  rw [max_eq_right h]

/-- Witness of C11 amended: horizon index 1 for a level of 10 m in 2024 and an
extraction rate of 30 %. -/
theorem band_bounds_witness :
    noChangeUpperAt 10 (projectionFactorOf sampleLightUse sampleDeep) 2024 1 =
        noChangeAt 10 (projectionFactorOf sampleLightUse sampleDeep) 2024 1 *
          (1 + 1 / 20 * ((1 : ℕ) : ℚ)) ∧
      |(projectionPoint 10 (projectionFactorOf sampleLightUse sampleDeep) 2024 1).noChangeLower -
          noChangeLowerAt 10 (projectionFactorOf sampleLightUse sampleDeep) 2024 1| ≤
        1 / 200 :=
  ⟨(band_bounds sampleLightUse sampleDeep ⟨2024, 10⟩ 1 _ rfl rfl).2.1,
    (band_bounds sampleLightUse sampleDeep ⟨2024, 10⟩ 1 _ rfl rfl).2.2.2.2.2.2⟩

/-- C12: for every non-empty trend series the projection has exactly 6 points,
their years are anchorYear, anchorYear+1, ..., anchorYear+5 in that order
(anchorYear being the year of the last trend point), and only the point at
index 0 carries a `current` value, the level of the last trend point. -/
theorem projection_years (data : RegionData) (historicalData : List HistoricalPoint)
    (h : historicalData ≠ []) :
    (getProjectionData data historicalData).length = 6 ∧
      (getProjectionData data historicalData).map (fun p => p.year) =
        [(historicalData.getLast h).year, (historicalData.getLast h).year + 1,
          (historicalData.getLast h).year + 2, (historicalData.getLast h).year + 3,
          (historicalData.getLast h).year + 4, (historicalData.getLast h).year + 5] ∧
      (getProjectionData data historicalData).map (fun p => p.current) =
        [some (historicalData.getLast h).level, none, none, none, none, none] := by
  have hl : historicalData.getLast? = some (historicalData.getLast h) :=
    List.getLast?_eq_getLast _ h
  refine ⟨getProjectionData_length h, ?_, ?_⟩
  · simp [getProjectionData, hl, List.range, List.range.loop, projectionPoint]
  · simp [getProjectionData, hl, List.range, List.range.loop, projectionPoint]

/-- Witness of C12: the one-point series with a level of 2 m in 2024. -/
theorem projection_years_witness :
    (getProjectionData sampleHeavyUse sampleShallow).map (fun p => p.year) =
        [2024, 2025, 2026, 2027, 2028, 2029] ∧
      (getProjectionData sampleHeavyUse sampleShallow).map (fun p => p.current) =
        [some 2, none, none, none, none, none] :=
  ⟨(projection_years sampleHeavyUse sampleShallow (by simp [sampleShallow])).2.1,
    (projection_years sampleHeavyUse sampleShallow (by simp [sampleShallow])).2.2⟩

/-! Projection factors and risk scores: the claims -/

/-- Counterexample to C13: for an annual rainfall of 0 mm the code's
rainfallFactor is 0, while clamp((0 − 900)/500, −1, 1) is −1. -/
theorem rainfallFactor_at_zero :
    sampleNoRain.rainfall = some 0 ∧ rainfallFactorOf sampleNoRain = 0 ∧
      specClamp ((0 - 900) / 500) (-1) 1 = -1 ∧
      rainfallFactorOf sampleNoRain ≠ specClamp ((0 - 900) / 500) (-1) 1 := by
  have h1 : rainfallFactorOf sampleNoRain = 0 := by
    simp [rainfallFactorOf, sampleNoRain, truthyNum]
  have h2 : specClamp ((0 - 900) / 500) (-1) 1 = -1 := by
    norm_num [specClamp]
  refine ⟨rfl, h1, h2, ?_⟩
  rw [h1, h2]; norm_num

/-- C13, amended: for every non-zero annual rainfall (in particular every
rainfall > 0) the rainfallFactor of `getProjectionData` equals
clamp((rainfall − 900)/500, −1, 1); for an absent rainfall or a rainfall of 0
it is 0; in every case it lies in [−1, 1]. -/
theorem rainfallFactor_spec (data : RegionData) :
    (∀ r, data.rainfall = some r → r ≠ 0 →
        rainfallFactorOf data = specClamp ((r - 900) / 500) (-1) 1) ∧
      (data.rainfall = none ∨ data.rainfall = some 0 → rainfallFactorOf data = 0) ∧
      (-1 ≤ rainfallFactorOf data ∧ rainfallFactorOf data ≤ 1) := by
  refine ⟨fun r hr hne => ?_, fun h => ?_, ?_⟩
  · simp only [rainfallFactorOf, hr, truthyNum, specClamp, Option.getD_some]
    rw [if_pos (by simpa using hne)]
    rcases le_total ((r - 900) / 500) (-1) with h1 | h1
    · rw [max_eq_left h1, min_eq_right (by norm_num), min_eq_right (by linarith),
        max_eq_left h1]
    · rw [max_eq_right h1]
      rcases le_total ((r - 900) / 500) 1 with h2 | h2
      · rw [min_eq_right h2, max_eq_right h1]
      · rw [min_eq_left h2, max_eq_right (by norm_num)]
  · rcases h with h | h <;> simp [rainfallFactorOf, h, truthyNum]
  · unfold rainfallFactorOf
    split_ifs
    · exact ⟨le_min (by norm_num) (le_max_left _ _), min_le_left _ _⟩
    · constructor <;> norm_num

/-- Witness of C13 amended: an annual rainfall of 1150 mm gives
clamp(0.5, −1, 1). -/
theorem rainfallFactor_spec_witness :
    rainfallFactorOf sampleWet = specClamp ((1150 - 900) / 500) (-1) 1 :=
  (rainfallFactor_spec sampleWet).1 1150 rfl (by norm_num)

/-- Counterexample to C14: for an extraction rate of 0 % the term added into
projectionFactor is −0.1 (the rate is replaced by 50), while
extractionPenalty(0) is +0.05; projectionFactor is −0.1 instead of +0.05. -/
theorem extraction_term_at_zero :
    sampleIdle.extraction = some 0 ∧
      extractionImpact (extractionRateOf sampleIdle) = -(1 / 10) ∧
      extractionPenalty 0 = 1 / 20 ∧
      projectionFactorOf sampleIdle sampleShallow ≠
        historicalSlopeOf sampleShallow * (6 / 5) + extractionPenalty 0 +
          rainfallFactorOf sampleIdle * (1 / 10) + rechargeBalanceOf sampleIdle * (3 / 20) := by
  refine ⟨rfl, ?_, ?_, ?_⟩
  · norm_num [extractionImpact, extractionRateOf, sampleIdle, truthyNum]
  · norm_num [extractionPenalty]
  · norm_num [projectionFactorOf, historicalSlopeOf, historicalSlopeRun, divide, sampleShallow, extractionImpact,
      extractionRateOf, rainfallFactorOf, rechargeBalanceOf, sampleIdle, truthyNum,
      extractionPenalty]

/-- C14, amended: for every non-zero extraction rate (in particular every rate
> 0) the extraction term added into projectionFactor equals
extractionPenalty(rate); for an absent rate or a rate of 0 the term is
extractionPenalty(50) = −0.1. -/
theorem extraction_term_spec (data : RegionData) (historicalData : List HistoricalPoint) :
    (∀ rate, data.extraction = some rate → rate ≠ 0 →
        extractionImpact (extractionRateOf data) = extractionPenalty rate ∧
          projectionFactorOf data historicalData =
            historicalSlopeOf historicalData * (6 / 5) + extractionPenalty rate +
              rainfallFactorOf data * (1 / 10) + rechargeBalanceOf data * (3 / 20)) ∧
      (data.extraction = none ∨ data.extraction = some 0 →
        extractionImpact (extractionRateOf data) = extractionPenalty 50 ∧
          extractionPenalty 50 = -(1 / 10)) := by
  refine ⟨fun rate hr hne => ?_, fun h => ?_⟩
  · have hrate : extractionRateOf data = rate := by
      simp [extractionRateOf, hr, truthyNum, hne]
    have hterm : extractionImpact (extractionRateOf data) = extractionPenalty rate := by
      rw [hrate]; rfl
    exact ⟨hterm, by rw [projectionFactorOf, hterm]⟩
  · have hrate : extractionRateOf data = 50 := by
      rcases h with h | h <;> simp [extractionRateOf, h, truthyNum]
    refine ⟨by rw [hrate]; rfl, ?_⟩
    norm_num [extractionPenalty]

/-- Witness of C14 amended: an extraction rate of 90 % gives
extractionPenalty(90). -/
theorem extraction_term_spec_witness :
    extractionImpact (extractionRateOf sampleHeavyUse) = extractionPenalty 90 :=
  ((extraction_term_spec sampleHeavyUse sampleShallow).1 90 rfl (by norm_num)).1

/-! Water balance: the claims -/

/-- C15: whenever `getWaterBalanceData` returns a non-empty result, the value
of its Net Balance entry is exactly the value of its Recharge entry minus the
value of its Extraction entry minus the value of its Natural Discharge entry,
the latter being 0 when no natural discharge is recorded. -/
theorem net_balance_exact (data : RegionData) (h : getWaterBalanceData data ≠ []) :
    ∃ r e n, balanceValue "Recharge" (getWaterBalanceData data) = some r ∧
      balanceValue "Extraction" (getWaterBalanceData data) = some e ∧
      balanceValue "Natural Discharge" (getWaterBalanceData data) = some n ∧
      balanceValue "Net Balance" (getWaterBalanceData data) = some (r - e - n) ∧
      (data.naturalDischarges = none → n = 0) := by
  unfold getWaterBalanceData at h ⊢
  split_ifs at h ⊢ with hc
  · exact absurd rfl h
  · refine ⟨data.groundWaterRecharge.getD 0, data.groundWaterExtraction.getD 0,
      orOrZero data.naturalDischarges none, ?_, ?_, ?_, ?_, fun hn => ?_⟩
    · simp [balanceValue]
    · simp [balanceValue]
    · simp [balanceValue]
    · simp [balanceValue]
    · simp [hn, orOrZero]

/-- Witness of C15: recharge 500, extraction 300, no natural discharge. -/
theorem net_balance_exact_witness :
    ∃ r e n, balanceValue "Recharge" (getWaterBalanceData sampleBalance) = some r ∧
      balanceValue "Extraction" (getWaterBalanceData sampleBalance) = some e ∧
      balanceValue "Natural Discharge" (getWaterBalanceData sampleBalance) = some n ∧
      balanceValue "Net Balance" (getWaterBalanceData sampleBalance) = some (r - e - n) ∧
      (sampleBalance.naturalDischarges = none → n = 0) :=
  net_balance_exact sampleBalance (by simp [getWaterBalanceData, sampleBalance, truthyNum])

/-- C16: `getWaterBalanceData` returns the empty sequence if
groundWaterRecharge or groundWaterExtraction is absent or zero, and otherwise
exactly four entries named, in order, Recharge, Extraction, Natural Discharge,
Net Balance. -/
theorem water_balance_shape (data : RegionData) :
    (truthyNum data.groundWaterRecharge = false ∨
        truthyNum data.groundWaterExtraction = false →
      getWaterBalanceData data = []) ∧
    (truthyNum data.groundWaterRecharge = true →
        truthyNum data.groundWaterExtraction = true →
      (getWaterBalanceData data).map (fun e => e.name) =
        ["Recharge", "Extraction", "Natural Discharge", "Net Balance"]) := by
  refine ⟨fun h => ?_, fun h1 h2 => ?_⟩
  · rcases h with h | h <;> simp [getWaterBalanceData, h]
  · simp [getWaterBalanceData, h1, h2]

/-- Witness of C16: a record without recharge gives no entries; recharge 500
with extraction 300 gives the four names. -/
theorem water_balance_shape_witness :
    getWaterBalanceData sampleBlank = [] ∧
      (getWaterBalanceData sampleBalance).map (fun e => e.name) =
        ["Recharge", "Extraction", "Natural Discharge", "Net Balance"] :=
  ⟨(water_balance_shape sampleBlank).1 (Or.inl (by simp [sampleBlank, truthyNum])),
    (water_balance_shape sampleBalance).2 (by simp [sampleBalance, truthyNum])
      (by simp [sampleBalance, truthyNum])⟩

/-! Risk assessment: lemmas and claims -/

theorem riskLevelFactor_bounds (data : RegionData) :
    0 ≤ riskLevelFactor data ∧ riskLevelFactor data ≤ 1 := by
  unfold riskLevelFactor
  split_ifs
  · exact ⟨le_max_left _ _, max_le (by norm_num) (min_le_left _ _)⟩
  · constructor <;> norm_num

theorem riskRainfallFactor_bounds (data : RegionData) :
    0 ≤ riskRainfallFactor data ∧ riskRainfallFactor data ≤ 1 := by
  unfold riskRainfallFactor
  split_ifs
  · exact ⟨le_max_left _ _, max_le (by norm_num) (min_le_left _ _)⟩
  · constructor <;> norm_num

theorem riskExtractionFactor_bounds (data : RegionData)
    (he : ∀ e, data.extraction = some e → 0 ≤ e) :
    0 ≤ riskExtractionFactor data ∧ riskExtractionFactor data ≤ 1 := by
  unfold riskExtractionFactor
  split_ifs with h
  · obtain ⟨e, hx, -⟩ := (truthyNum_eq_true_iff _).1 h
    have h0 := he e hx
    rw [hx, Option.getD_some]
    have h1 : (0 : ℚ) ≤ min 100 e := le_min (by norm_num) h0
    have h2 : min 100 e ≤ 100 := min_le_left _ _
    constructor
    · positivity
    · linarith
  · constructor <;> norm_num

theorem riskScore_depletion (data : RegionData) :
    riskScore "Depletion Risk" (getRiskAssessmentData data) =
      some (riskExtractionFactor data * 100) := by
  simp [riskScore, getRiskAssessmentData]

theorem riskScore_rainfall (data : RegionData) :
    riskScore "Rainfall Dependency" (getRiskAssessmentData data) =
      some (riskRainfallFactor data * 100) := by
  simp [riskScore, getRiskAssessmentData]

theorem riskScore_recharge (data : RegionData) :
    riskScore "Recharge Potential" (getRiskAssessmentData data) =
      some (100 - riskRainfallFactor data * 100) := by
  simp [riskScore, getRiskAssessmentData]

/-- C17: for every record whose extraction rate is absent or non-negative,
whatever its level and rainfall are (in particular when they are absent or
non-negative), `getRiskAssessmentData` returns exactly 5 entries and every
score lies in [0, 100]. -/
theorem risk_scores_in_range (data : RegionData)
    (he : ∀ e, data.extraction = some e → 0 ≤ e) :
    (getRiskAssessmentData data).length = 5 ∧
      ∀ x ∈ getRiskAssessmentData data, 0 ≤ x.A ∧ x.A ≤ 100 := by
  have h1 := riskExtractionFactor_bounds data he
  have h2 := riskLevelFactor_bounds data
  have h3 := riskRainfallFactor_bounds data
  refine ⟨rfl, fun x hx => ?_⟩
  simp only [getRiskAssessmentData, List.mem_cons, List.mem_singleton, List.not_mem_nil,
    or_false] at hx
  rcases hx with rfl | rfl | rfl | rfl | rfl <;> constructor <;> dsimp only <;> linarith

/-- Witness of C17: extraction rate 120 %, level 10 m, rainfall 750 mm; the
Sustainability entry is one of the five. -/
theorem risk_scores_in_range_witness :
    (getRiskAssessmentData sampleRisk).length = 5 ∧
      0 ≤ 100 - (riskExtractionFactor sampleRisk * 70 + riskLevelFactor sampleRisk * 30) ∧
      100 - (riskExtractionFactor sampleRisk * 70 + riskLevelFactor sampleRisk * 30) ≤ 100 :=
  ⟨(risk_scores_in_range sampleRisk
      (by intro e h; simp [sampleRisk] at h; rw [← h]; norm_num)).1,
    (risk_scores_in_range sampleRisk
      (by intro e h; simp [sampleRisk] at h; rw [← h]; norm_num)).2
      ⟨"Sustainability",
        100 - (riskExtractionFactor sampleRisk * 70 + riskLevelFactor sampleRisk * 30), 100⟩
      (by simp [getRiskAssessmentData])⟩

/-- Counterexample to C18: for an extraction rate of 0 % the Depletion Risk
score is 50, while clamp(0, 0, 100) is 0. -/
theorem depletion_risk_at_zero :
    sampleIdle.extraction = some 0 ∧
      riskScore "Depletion Risk" (getRiskAssessmentData sampleIdle) = some 50 ∧
      specClamp 0 0 100 = 0 ∧
      riskScore "Depletion Risk" (getRiskAssessmentData sampleIdle) ≠
        some (specClamp 0 0 100) := by
  have h : riskExtractionFactor sampleIdle = 1 / 2 := by
    simp [riskExtractionFactor, sampleIdle, truthyNum]
  have hs : specClamp 0 0 100 = 0 := by norm_num [specClamp]
  refine ⟨rfl, ?_, hs, ?_⟩
  · rw [riskScore_depletion, h]
    norm_num
  · rw [riskScore_depletion, h, hs]
    norm_num

/-- C18, amended: for every extraction rate > 0 the extractionFactor is
clamp(extractionRate, 0, 100)/100 and the Depletion Risk score is that factor
scaled by 100, (clamp(extractionRate, 0, 100)/100)·100; for an absent rate or
a rate of 0 the score is 50. -/
theorem depletion_risk_spec (data : RegionData) :
    (∀ e, data.extraction = some e → 0 < e →
        riskExtractionFactor data = specClamp e 0 100 / 100 ∧
          riskScore "Depletion Risk" (getRiskAssessmentData data) =
            some (specClamp e 0 100 / 100 * 100)) ∧
      (data.extraction = none ∨ data.extraction = some 0 →
        riskScore "Depletion Risk" (getRiskAssessmentData data) = some 50) := by
  refine ⟨fun e he hpos => ?_, fun h => ?_⟩
  · have hc : specClamp e 0 100 = min 100 e := by
      unfold specClamp
      exact max_eq_right (le_min (by norm_num) hpos.le)
    have hf : riskExtractionFactor data = min 100 e / 100 := by
      simp [riskExtractionFactor, he, truthyNum, hpos.ne']
    refine ⟨by rw [hf, hc], ?_⟩
    rw [riskScore_depletion, hf, hc]
  · have hf : riskExtractionFactor data = 1 / 2 := by
      rcases h with h | h <;> simp [riskExtractionFactor, h, truthyNum]
    rw [riskScore_depletion, hf]
    norm_num

/-- Witness of C18 amended: an extraction rate of 120 % scores
(clamp(120, 0, 100)/100)·100. -/
theorem depletion_risk_spec_witness :
    riskScore "Depletion Risk" (getRiskAssessmentData sampleRisk) =
      some (specClamp 120 0 100 / 100 * 100) :=
  ((depletion_risk_spec sampleRisk).1 120 rfl (by norm_num)).2

/-- Counterexample to C19: for an annual rainfall of 0 mm the Rainfall
Dependency score is 50, while 100·clamp(1 − 0/1500, 0, 1) is 100. -/
theorem rainfall_dependency_at_zero :
    sampleNoRain.rainfall = some 0 ∧
      riskScore "Rainfall Dependency" (getRiskAssessmentData sampleNoRain) = some 50 ∧
      100 * specClamp (1 - 0 / 1500) 0 1 = 100 ∧
      riskScore "Rainfall Dependency" (getRiskAssessmentData sampleNoRain) ≠
        some (100 * specClamp (1 - 0 / 1500) 0 1) := by
  have h : riskRainfallFactor sampleNoRain = 1 / 2 := by
    simp [riskRainfallFactor, sampleNoRain, truthyNum]
  have hs : (100 : ℚ) * specClamp (1 - 0 / 1500) 0 1 = 100 := by norm_num [specClamp]
  refine ⟨rfl, ?_, hs, ?_⟩
  · rw [riskScore_rainfall, h]
    norm_num
  · rw [riskScore_rainfall, h, hs]
    norm_num

/-- C19, amended: for every non-zero annual rainfall (in particular every
rainfall > 0) the Rainfall Dependency score equals
100·clamp(1 − rainfall/1500, 0, 1); for an absent rainfall or a rainfall of 0 it
is 50; and for every record the Recharge Potential score equals 100 minus the
Rainfall Dependency score. -/
theorem rainfall_dependency_spec (data : RegionData) :
    (∀ r, data.rainfall = some r → r ≠ 0 →
        riskScore "Rainfall Dependency" (getRiskAssessmentData data) =
          some (100 * specClamp (1 - r / 1500) 0 1)) ∧
      (data.rainfall = none ∨ data.rainfall = some 0 →
        riskScore "Rainfall Dependency" (getRiskAssessmentData data) = some 50) ∧
      (∃ dep, riskScore "Rainfall Dependency" (getRiskAssessmentData data) = some dep ∧
        riskScore "Recharge Potential" (getRiskAssessmentData data) = some (100 - dep)) := by
  refine ⟨fun r hr hne => ?_, fun h => ?_, ?_⟩
  · have hf : riskRainfallFactor data = specClamp (1 - r / 1500) 0 1 := by
      simp [riskRainfallFactor, hr, truthyNum, hne, specClamp]
    rw [riskScore_rainfall, hf, mul_comm]
  · have hf : riskRainfallFactor data = 1 / 2 := by
      rcases h with h | h <;> simp [riskRainfallFactor, h, truthyNum]
    rw [riskScore_rainfall, hf]
    norm_num
  · exact ⟨riskRainfallFactor data * 100, riskScore_rainfall data, riskScore_recharge data⟩

/-- Witness of C19 amended: an annual rainfall of 750 mm scores
100·clamp(0.5, 0, 1). -/
theorem rainfall_dependency_spec_witness :
    riskScore "Rainfall Dependency" (getRiskAssessmentData sampleRisk) =
      some (100 * specClamp (1 - 750 / 1500) 0 1) :=
  (rainfall_dependency_spec sampleRisk).1 750 rfl (by norm_num)

/-! Historical trend: the claims -/

/-- C20: when the historical series is absent or empty,
`getFormattedHistoricalData` returns exactly 10 points whose years are
currentYear−9, currentYear−8, ..., currentYear in ascending order, for every
value of the random source (and of `Math.sin`, `Math.cos`). -/
theorem synthetic_years (env : TrendEnv) (historicalLevels : Option (List HistoricalPoint))
    (h : historicalLevels = none ∨ historicalLevels = some []) :
    (getFormattedHistoricalData env historicalLevels).length = 10 ∧
      (getFormattedHistoricalData env historicalLevels).map (fun p => p.year) =
        [env.currentYear - 9, env.currentYear - 8, env.currentYear - 7,
          env.currentYear - 6, env.currentYear - 5, env.currentYear - 4,
          env.currentYear - 3, env.currentYear - 2, env.currentYear - 1,
          env.currentYear] := by
  have hsyn : getFormattedHistoricalData env historicalLevels =
      (List.range 10).map (syntheticPoint env) := by
    rcases h with rfl | rfl <;> rfl
  rw [hsyn]
  refine ⟨by simp, ?_⟩
  simp only [List.range, List.range.loop, List.map, syntheticPoint]
  norm_num
  omega

/-- Witness of C20: an absent series in the year 2025. -/
theorem synthetic_years_witness :
    (getFormattedHistoricalData sampleEnv none).length = 10 ∧
      (getFormattedHistoricalData sampleEnv none).map (fun p => p.year) =
        [2025 - 9, 2025 - 8, 2025 - 7, 2025 - 6, 2025 - 5, 2025 - 4, 2025 - 3, 2025 - 2,
          2025 - 1, 2025] :=
  synthetic_years sampleEnv none (Or.inl rfl)

/-! Indexed maps and `Math.round`: lemmas -/

/-- The element at index `i` of `arr.map((item, idx) => f idx item)`. -/
theorem getElem?_zipWith_range {α β : Type} (f : ℕ → α → β) (l : List α) (i : ℕ)
    (hi : i < l.length) :
    (List.zipWith f (List.range l.length) l)[i]? = some (f i l[i]) := by
  rw [List.getElem?_zipWith_eq_some]
  exact ⟨i, l[i], List.getElem?_range hi, List.getElem?_eq_getElem hi, rfl⟩

/-- Projecting an indexed map onto what does not depend on the index. -/
theorem map_zipWith_range {α β γ : Type} (f : ℕ → α → β) (g : β → γ) (h : α → γ)
    (hfg : ∀ i a, g (f i a) = h a) (l : List α) :
    (List.zipWith f (List.range l.length) l).map g = l.map h := by
  apply List.ext_getElem?
  intro n
  by_cases hn : n < l.length
  · rw [List.getElem?_map, getElem?_zipWith_range f l n hn, List.getElem?_map,
      List.getElem?_eq_getElem hn]
    simp [hfg]
  · have h1 : (List.zipWith f (List.range l.length) l).length ≤ n := by
      simp; omega
    rw [List.getElem?_map, List.getElem?_eq_none h1, List.getElem?_map,
      List.getElem?_eq_none (by omega)]
    rfl

theorem mathRound_eval (x : ℚ) (k : ℤ) (h1 : (k : ℚ) ≤ x + 1 / 2)
    (h2 : x + 1 / 2 < (k : ℚ) + 1) : mathRound x = (k : ℚ) := by
  rw [mathRound, Int.floor_eq_iff.2 ⟨h1, h2⟩]

theorem mathRound_near (x : ℚ) : |mathRound x - x| ≤ 1 / 2 := by
  have h1 := Int.floor_le (x + 1 / 2)
  have h2 := Int.lt_floor_add_one (x + 1 / 2)
  rw [mathRound, abs_le]
  constructor <;> linarith

/-- Rounding to one decimal, `Math.round(x * 10) / 10`, yields a multiple of
0.1 within 0.05 of `x`. -/
theorem roundTenth_near (x : ℚ) :
    (∃ k : ℤ, mathRound (x * 10) / 10 = (k : ℚ) / 10) ∧
      |mathRound (x * 10) / 10 - x| ≤ 1 / 20 := by
  refine ⟨⟨⌊x * 10 + 1 / 2⌋, rfl⟩, ?_⟩
  have h := abs_le.1 (mathRound_near (x * 10))
  rw [abs_le]
  constructor <;> linarith [h.1, h.2]

theorem levelAt_of_lt (arr : List HistoricalPoint) (i : ℕ) (hi : i < arr.length) :
    levelAt arr i = arr[i].level := by
  simp [levelAt, List.getElem?_eq_getElem hi]

/-- For a non-empty supplied series the result is the indexed map of
`enhancedPoint`. -/
theorem getFormattedHistoricalData_supplied (env : TrendEnv) (arr : List HistoricalPoint)
    (h : arr ≠ []) :
    getFormattedHistoricalData env (some arr) =
      List.zipWith (enhancedPoint env arr) (List.range arr.length) arr := by
  cases arr with
  | nil => exact absurd rfl h
  | cons first rest => rfl

/-! Historical trend of a supplied series: the claims -/

/-- C21: for every supplied non-empty historical series and every index `i`,
the output has a point at index `i` with the level of input point `i`, and its
fiveYearAvg is, up to the rounding to one decimal, the mean of the levels at
indices i−4..i when i ≥ 4 and the point's own level when i < 4: it is a
multiple of 0.1 within 0.05 of that value. -/
theorem five_year_average (env : TrendEnv) (arr : List HistoricalPoint) (i : ℕ)
    (hi : i < arr.length) :
    (getFormattedHistoricalData env (some arr)).length = arr.length ∧
      ∃ p a, (getFormattedHistoricalData env (some arr))[i]? = some p ∧
        p.level = levelAt arr i ∧ p.fiveYearAvg = some a ∧
        (∃ k : ℤ, a = (k : ℚ) / 10) ∧
        (4 ≤ i →
          |a - (levelAt arr (i - 4) + levelAt arr (i - 3) + levelAt arr (i - 2) +
            levelAt arr (i - 1) + levelAt arr i) / 5| ≤ 1 / 20) ∧
        (i < 4 → |a - levelAt arr i| ≤ 1 / 20) := by
  have hne : arr ≠ [] := by
    rintro rfl
    simp at hi
  rw [getFormattedHistoricalData_supplied env arr hne]
  refine ⟨by simp, enhancedPoint env arr i arr[i], _, getElem?_zipWith_range _ arr i hi, ?_,
    rfl, ?_, ?_, ?_⟩
  · rw [levelAt_of_lt arr i hi]; rfl
  · exact (roundTenth_near _).1
  · intro h4
    rw [levelAt_of_lt arr i hi]
    have hge : i ≥ 4 := h4
    simp only [hge, if_true]
    exact (roundTenth_near _).2
  · intro h4
    rw [levelAt_of_lt arr i hi]
    have hge : ¬ i ≥ 4 := by omega
    simp only [hge, if_false]
    exact (roundTenth_near _).2

/-- Witness of C21: index 4 of a five-point series. -/
theorem five_year_average_witness :
    (getFormattedHistoricalData sampleEnv (some sampleFiveLevels)).length =
        sampleFiveLevels.length ∧
      ∃ p a, (getFormattedHistoricalData sampleEnv (some sampleFiveLevels))[4]? = some p ∧
        p.level = levelAt sampleFiveLevels 4 ∧ p.fiveYearAvg = some a ∧
        (∃ k : ℤ, a = (k : ℚ) / 10) ∧
        (4 ≤ 4 →
          |a - (levelAt sampleFiveLevels (4 - 4) + levelAt sampleFiveLevels (4 - 3) +
            levelAt sampleFiveLevels (4 - 2) + levelAt sampleFiveLevels (4 - 1) +
            levelAt sampleFiveLevels 4) / 5| ≤ 1 / 20) ∧
        (4 < 4 → |a - levelAt sampleFiveLevels 4| ≤ 1 / 20) :=
  five_year_average sampleEnv sampleFiveLevels 4 (by simp [sampleFiveLevels])

/-- The trend of a supplied series of three or more points: up to the
rounding to one decimal, point `i` has trend first.level + slope·i with
slope = (last.level − first.level)/(n − 1), and the trend at the last index is
the last level; each is a multiple of 0.1 within 0.05 of that value. -/
theorem trend_of_long_series (env : TrendEnv) (arr : List HistoricalPoint) (i : ℕ)
    (hn : 2 < arr.length) (hi : i < arr.length) :
    (∃ p, (getFormattedHistoricalData env (some arr))[i]? = some p ∧
        (∃ k : ℤ, p.trend = (k : ℚ) / 10) ∧
        |p.trend - (levelAt arr 0 +
          (levelAt arr (arr.length - 1) - levelAt arr 0) / ((arr.length : ℚ) - 1) * (i : ℚ))| ≤
            1 / 20) ∧
      ∃ q, (getFormattedHistoricalData env (some arr))[arr.length - 1]? = some q ∧
        |q.trend - levelAt arr (arr.length - 1)| ≤ 1 / 20 := by
  have hne : arr ≠ [] := by
    rintro rfl
    simp at hi
  have key : ∀ j, j < arr.length →
      ∃ p, (getFormattedHistoricalData env (some arr))[j]? = some p ∧
        p.trend = mathRound ((levelAt arr 0 +
          (levelAt arr (arr.length - 1) - levelAt arr 0) / ((arr.length : ℚ) - 1) * (j : ℚ)) *
            10) / 10 := by
    intro j hj
    rw [getFormattedHistoricalData_supplied env arr hne]
    refine ⟨enhancedPoint env arr j arr[j], getElem?_zipWith_range _ arr j hj, ?_⟩
    simp [enhancedPoint, hn]
  constructor
  · obtain ⟨p, hp, hpt⟩ := key i hi
    refine ⟨p, hp, ?_, ?_⟩
    · rw [hpt]; exact (roundTenth_near _).1
    · rw [hpt]; exact (roundTenth_near _).2
  · obtain ⟨q, hq, hqt⟩ := key (arr.length - 1) (by omega)
    refine ⟨q, hq, ?_⟩
    have hcast : ((arr.length - 1 : ℕ) : ℚ) = (arr.length : ℚ) - 1 := by
      rw [Nat.cast_sub (by omega)]; simp
    have hpos : (arr.length : ℚ) - 1 ≠ 0 := by
      have : (2 : ℚ) < (arr.length : ℚ) := by exact_mod_cast hn
      linarith
    have hval : levelAt arr 0 +
        (levelAt arr (arr.length - 1) - levelAt arr 0) / ((arr.length : ℚ) - 1) *
          ((arr.length - 1 : ℕ) : ℚ) = levelAt arr (arr.length - 1) := by
      rw [hcast, div_mul_cancel₀ _ hpos]; ring
    rw [hqt, hval]
    exact (roundTenth_near _).2

/-- C22 on the two-point series with levels 10.25 (2023) and 12 (2024): the
code takes the slope −0.05 instead of (12 − 10.25)/(2 − 1) = 1.75, so the trend
values are 10.3 and 10.2 and the trend at the last index is not the last level
12; the slope of `getProjectionData` on the same series is 1.75. -/
theorem trend_of_two_points :
    (getFormattedHistoricalData sampleEnv (some sampleTwoLevels)).map (fun p => p.trend) =
        [103 / 10, 51 / 5] ∧
      levelAt sampleTwoLevels 0 +
        (levelAt sampleTwoLevels 1 - levelAt sampleTwoLevels 0) / (2 - 1) * 1 = 12 ∧
      historicalSlopeOf sampleTwoLevels = 7 / 4 := by
  have r0 : mathRound (205 / 2) = 103 :=
    mathRound_eval _ 103 (by norm_num) (by norm_num)
  have r1 : mathRound 102 = 102 :=
    mathRound_eval _ 102 (by norm_num) (by norm_num)
  refine ⟨?_, ?_, ?_⟩
  · simp only [getFormattedHistoricalData, sampleTwoLevels, List.length_cons, List.length_nil,
      List.range, List.range.loop, List.zipWith, List.map, enhancedPoint, levelAt]
    norm_num [r0, r1]
  · norm_num [levelAt, sampleTwoLevels]
  · norm_num [historicalSlopeOf, historicalSlopeRun, divide, sampleTwoLevels]

/-! Rainfall pattern: lemmas and claims -/

/-- For a non-empty supplied series the result is the indexed map of
`analysedRainfallPoint`. -/
theorem getFormattedRainfallData_supplied (env : RainEnv) (series : List MonthlyRainfallPoint)
    (h : series ≠ []) :
    getFormattedRainfallData env (some series) =
      List.zipWith
        (analysedRainfallPoint env
          (movingAvgOf (series.map (fun item => item.rainfall)))
          (climateImpactOf env (series.map (fun item => item.rainfall))))
        (List.range series.length) series := by
  cases series with
  | nil => exact absurd rfl h
  | cons first rest => rfl

/-- The entry of `movingAvg` at an index of the series. -/
theorem movingAvgOf_getD (values : List ℚ) (i : ℕ) (hi : i < values.length) :
    (movingAvgOf values).getD i 0 = movingAvgAt values i (values.getD i 0) := by
  rw [List.getD_eq_getElem?_getD, movingAvgOf, getElem?_zipWith_range _ values i hi,
    List.getD_eq_getElem?_getD, List.getElem?_eq_getElem hi]
  rfl

/-- C23: for every supplied non-empty monthly rainfall series,
`getFormattedRainfallData` returns one point per input point, in the same
order, with month and rainfall copied unchanged. -/
theorem rainfall_points_copied (env : RainEnv) (series : List MonthlyRainfallPoint)
    (h : series ≠ []) :
    (getFormattedRainfallData env (some series)).length = series.length ∧
      (getFormattedRainfallData env (some series)).map (fun p => (p.month, p.rainfall)) =
        series.map (fun item => (item.month, item.rainfall)) := by
  rw [getFormattedRainfallData_supplied env series h]
  refine ⟨by simp, ?_⟩
  generalize movingAvgOf (series.map (fun item => item.rainfall)) = movingAvg
  generalize climateImpactOf env (series.map (fun item => item.rainfall)) = climateImpact
  have hcopy : ∀ (i : ℕ) (item : MonthlyRainfallPoint),
      (fun p : RainfallPoint => (p.month, p.rainfall))
          (analysedRainfallPoint env movingAvg climateImpact i item) =
        (fun item : MonthlyRainfallPoint => (item.month, item.rainfall)) item :=
    fun _ _ => rfl
  exact map_zipWith_range _ _ _ hcopy series

/-- Witness of C23: a supplied series of three months. -/
theorem rainfall_points_copied_witness :
    (getFormattedRainfallData sampleRainEnv (some sampleQuarter)).length =
        sampleQuarter.length ∧
      (getFormattedRainfallData sampleRainEnv (some sampleQuarter)).map
          (fun p => (p.month, p.rainfall)) =
        sampleQuarter.map (fun item => (item.month, item.rainfall)) :=
  rainfall_points_copied sampleRainEnv sampleQuarter (by simp [sampleQuarter])

/-- Counterexample to C24: for the monthly rainfall 10, 21, 30 the weighted
average at index 2 is 10·0.2 + 21·0.3 + 30·0.5 = 23.3, but the avgRainfall of
output point 2 is 23. -/
theorem avgRainfall_is_rounded :
    rainfallAt sampleQuarter 0 * (1 / 5) + rainfallAt sampleQuarter 1 * (3 / 10) +
        rainfallAt sampleQuarter 2 * (1 / 2) = 233 / 10 ∧
      (getFormattedRainfallData sampleRainEnv (some sampleQuarter))[2]?.map
          (fun p => p.avgRainfall) = some 23 := by
  constructor
  · norm_num [rainfallAt, sampleQuarter]
  · have hr : mathRound (233 / 10) = 23 :=
      mathRound_eval _ 23 (by norm_num) (by norm_num)
    rw [getFormattedRainfallData_supplied _ _ (by simp [sampleQuarter]),
      getElem?_zipWith_range _ _ 2 (by simp [sampleQuarter])]
    simp only [Option.map_some', analysedRainfallPoint]
    rw [movingAvgOf_getD _ 2 (by simp [sampleQuarter])]
    norm_num [movingAvgAt, sampleQuarter, hr]

/-- C24, amended: for every supplied monthly rainfall series and every index
`i`, the avgRainfall of output point `i` is the weighted average
rainfall[i−2]·0.2 + rainfall[i−1]·0.3 + rainfall[i]·0.5 (for i ≥ 2) or
rainfall[i] (for i = 0, 1) rounded to the nearest integer by `Math.round`: it
is an integer within 0.5 of that value. -/
theorem avgRainfall_spec (env : RainEnv) (series : List MonthlyRainfallPoint) (i : ℕ)
    (hi : i < series.length) :
    ∃ p, (getFormattedRainfallData env (some series))[i]? = some p ∧
      (∃ k : ℤ, p.avgRainfall = (k : ℚ)) ∧
      (2 ≤ i →
        |p.avgRainfall -
          (rainfallAt series (i - 2) * (1 / 5) + rainfallAt series (i - 1) * (3 / 10) +
            rainfallAt series i * (1 / 2))| ≤ 1 / 2) ∧
      (i < 2 → |p.avgRainfall - rainfallAt series i| ≤ 1 / 2) := by
  have hne : series ≠ [] := by
    rintro rfl
    simp at hi
  rw [getFormattedRainfallData_supplied env series hne]
  refine ⟨_, getElem?_zipWith_range _ series i hi, ⟨_, rfl⟩, fun h2 => ?_, fun h2 => ?_⟩
  · simp only [analysedRainfallPoint]
    rw [movingAvgOf_getD _ i (by simpa using hi), movingAvgAt, if_neg (by omega)]
    exact mathRound_near _
  · simp only [analysedRainfallPoint]
    rw [movingAvgOf_getD _ i (by simpa using hi), movingAvgAt, if_pos h2]
    exact mathRound_near _

/-- Witness of C24 amended: index 2 of a supplied series of three months. -/
theorem avgRainfall_spec_witness :
    ∃ p, (getFormattedRainfallData sampleRainEnv (some sampleQuarter))[2]? = some p ∧
      (∃ k : ℤ, p.avgRainfall = (k : ℚ)) ∧
      (2 ≤ 2 →
        |p.avgRainfall -
          (rainfallAt sampleQuarter (2 - 2) * (1 / 5) +
            rainfallAt sampleQuarter (2 - 1) * (3 / 10) +
            rainfallAt sampleQuarter 2 * (1 / 2))| ≤ 1 / 2) ∧
      (2 < 2 → |p.avgRainfall - rainfallAt sampleQuarter 2| ≤ 1 / 2) :=
  avgRainfall_spec sampleRainEnv sampleQuarter 2 (by simp [sampleQuarter])

/-! The two copies of the classifier: the claims -/

/-- C25: the two copies of the classification logic agree: on every input
`getGroundwaterCategory` of `MapView.jsx` returns the category returned by
`getGroundwaterCategory` of `GroundWaterMapViewUtils.js`, and the two copies of
`getCategoryColor` return the same colour for every category string. -/
theorem classifier_copies_agree :
    (∀ (toUpperCase : String → String) (data : Option RegionData),
        MapView.getGroundwaterCategory toUpperCase data =
          getGroundwaterCategory toUpperCase data) ∧
      (∀ category : String, MapView.getCategoryColor category = getCategoryColor category) := by
  constructor
  · intro toUpperCase data
    cases data with
    | none => rfl
    | some d =>
      simp only [MapView.getGroundwaterCategory, getGroundwaterCategory,
        getGroundwaterCategoryRun, annualExtractableOf]
      split_ifs <;> rfl
  · intro category
    rfl

/-- C30: whenever groundWaterExtraction is absent or zero, both copies of
`getGroundwaterCategory` return No Data, whatever the category override and
the extractable resources are: the missing-extraction check comes first. -/
theorem no_data_before_override (toUpperCase : String → String) (d : RegionData)
    (h : truthyNum d.groundWaterExtraction = false)
    (category : Option String) (annualExtractable annualExtractableResources : Option ℚ) :
    getGroundwaterCategory toUpperCase
        (some { d with
          category := category
          annualExtractable := annualExtractable
          annualExtractableResources := annualExtractableResources }) = "No Data" ∧
      MapView.getGroundwaterCategory toUpperCase
        (some { d with
          category := category
          annualExtractable := annualExtractable
          annualExtractableResources := annualExtractableResources }) = "No Data" := by
  constructor
  · simp [getGroundwaterCategory, getGroundwaterCategoryRun, h]
  · simp [MapView.getGroundwaterCategory, h]

/-- Witness of C30: no extraction recorded, the override `"critical"` and 500
MCM extractable. -/
theorem no_data_before_override_witness :
    getGroundwaterCategory asciiUpperCase
        (some { sampleOverrideNoExtraction with
          category := some "critical"
          annualExtractable := none
          annualExtractableResources := some 500 }) = "No Data" ∧
      MapView.getGroundwaterCategory asciiUpperCase
        (some { sampleOverrideNoExtraction with
          category := some "critical"
          annualExtractable := none
          annualExtractableResources := some 500 }) = "No Data" :=
  no_data_before_override asciiUpperCase sampleOverrideNoExtraction
    (by simp [sampleOverrideNoExtraction, truthyNum]) (some "critical") none (some 500)

/-! Projection engine: slope and scenarios, the claims -/

/-- C26: the division that computes the historical slope in
`getProjectionData` never has a zero divisor: for every non-empty series the
divisor is Math.max(1, n − 1); for n ≥ 2 points it is n − 1 and the slope is
(last.level − first.level)/(n − 1); for a single point it is 1 and the slope
is 0. -/
theorem slope_denominator_guarded (historicalData : List HistoricalPoint)
    (first last : HistoricalPoint)
    (hf : historicalData.head? = some first) (hl : historicalData.getLast? = some last) :
    ∃ run, historicalSlopeRun historicalData = some run ∧
      run.divisor ≠ 0 ∧
      historicalSlopeOf historicalData = run.quotient ∧
      (2 ≤ historicalData.length →
        run.divisor = (historicalData.length : ℚ) - 1 ∧
          historicalSlopeOf historicalData =
            (last.level - first.level) / ((historicalData.length : ℚ) - 1)) ∧
      (historicalData.length = 1 →
        run.divisor = 1 ∧ historicalSlopeOf historicalData = 0) := by
  have hrun : historicalSlopeRun historicalData =
      some (divide (last.level - first.level) (max 1 ((historicalData.length : ℚ) - 1))) := by
    simp [historicalSlopeRun, hf, hl]
  have hslope : historicalSlopeOf historicalData =
      (last.level - first.level) / max 1 ((historicalData.length : ℚ) - 1) := by
    simp [historicalSlopeOf, hrun, divide]
  have hden : (1 : ℚ) ≤ max 1 ((historicalData.length : ℚ) - 1) := le_max_left _ _
  refine ⟨_, hrun, ?_, ?_, fun h2 => ?_, fun h1 => ?_⟩
  · show max 1 ((historicalData.length : ℚ) - 1) ≠ 0
    linarith
  · rw [hslope]; rfl
  · have h2q : (2 : ℚ) ≤ (historicalData.length : ℚ) := by exact_mod_cast h2
    have hmax : max 1 ((historicalData.length : ℚ) - 1) = (historicalData.length : ℚ) - 1 :=
      max_eq_right (by linarith)
    exact ⟨hmax, by rw [hslope, hmax]⟩
  · have hmax : max 1 ((historicalData.length : ℚ) - 1) = 1 := by
      rw [h1]; norm_num
    refine ⟨hmax, ?_⟩
    obtain ⟨a, rfl⟩ := List.length_eq_one.1 h1
    simp at hf hl
    rw [hslope, ← hf, ← hl]
    simp

/-- Witness of C26: the two-point series with levels 10.25 and 12. -/
theorem slope_denominator_guarded_witness :
    ∃ run, historicalSlopeRun sampleTwoLevels = some run ∧
      run.divisor ≠ 0 ∧
      historicalSlopeOf sampleTwoLevels = run.quotient ∧
      (2 ≤ sampleTwoLevels.length →
        run.divisor = (sampleTwoLevels.length : ℚ) - 1 ∧
          historicalSlopeOf sampleTwoLevels =
            ((12 : ℚ) - 41 / 4) / ((sampleTwoLevels.length : ℚ) - 1)) ∧
      (sampleTwoLevels.length = 1 →
        run.divisor = 1 ∧ historicalSlopeOf sampleTwoLevels = 0) :=
  slope_denominator_guarded sampleTwoLevels ⟨2023, 41 / 4⟩ ⟨2024, 12⟩ rfl rfl

/-- C27: for every input, whatever the sign of projectionFactor, every point of
the projection has noChange ≤ conservative ≤ aggressive. -/
theorem scenarios_ordered (data : RegionData) (historicalData : List HistoricalPoint) :
    ∀ p ∈ getProjectionData data historicalData,
      p.noChange ≤ p.conservative ∧ p.conservative ≤ p.aggressive := by
  intro p hp
  obtain ⟨last, i, -, -, rfl⟩ := mem_getProjectionData hp
  have hi : (0 : ℚ) ≤ (i : ℚ) := Nat.cast_nonneg i
  have hrec : (0 : ℚ) ≤ (if i > 2 then (1 / 10) * ((i : ℚ) - 2) else 0) := by
    split_ifs with h2
    · have : (2 : ℚ) < (i : ℚ) := by exact_mod_cast h2
      linarith
    · exact le_rfl
  constructor
  · apply toFixed2_mono
    unfold noChangeAt conservativeAt
    rw [getClimateImpact_offset]
    apply max_le_max le_rfl
    split_ifs with hneg
    · have := mul_nonpos_of_nonpos_of_nonneg hneg.le hi
      linarith
    · linarith
  · apply toFixed2_mono
    unfold conservativeAt aggressiveAt
    rw [getClimateImpact_offset]
    apply max_le_max le_rfl
    split_ifs with hneg h2 h2
    · have := mul_nonpos_of_nonpos_of_nonneg hneg.le hi
      have h3 : (2 : ℚ) < (i : ℚ) := by exact_mod_cast h2
      linarith
    · have := mul_nonpos_of_nonpos_of_nonneg hneg.le hi
      linarith
    · have h3 : (2 : ℚ) < (i : ℚ) := by exact_mod_cast h2
      linarith
    · linarith

/-- Witness of C27: the point of horizon index 3 for a level of 2 m in 2024 and
an extraction rate of 90 %. -/
theorem scenarios_ordered_witness :
    (projectionPoint 2 (projectionFactorOf sampleHeavyUse sampleShallow) 2024 3).noChange ≤
        (projectionPoint 2 (projectionFactorOf sampleHeavyUse sampleShallow) 2024 3).conservative ∧
      (projectionPoint 2 (projectionFactorOf sampleHeavyUse sampleShallow) 2024 3).conservative ≤
        (projectionPoint 2 (projectionFactorOf sampleHeavyUse sampleShallow) 2024 3).aggressive :=
  scenarios_ordered sampleHeavyUse sampleShallow _
    (getProjectionData_sampleHeavyUse ▸ List.mem_map.2 ⟨3, by simp, rfl⟩)

/-- C28: for every input, each of noChange, noChangeLower, noChangeUpper,
conservative, aggressive and worstCase of every point of the projection is at
least 1. -/
theorem levels_at_least_one (data : RegionData) (historicalData : List HistoricalPoint) :
    ∀ p ∈ getProjectionData data historicalData,
      1 ≤ p.noChange ∧ 1 ≤ p.noChangeLower ∧ 1 ≤ p.noChangeUpper ∧
        1 ≤ p.conservative ∧ 1 ≤ p.aggressive ∧ 1 ≤ p.worstCase := by
  intro p hp
  obtain ⟨last, i, -, hi, rfl⟩ := mem_getProjectionData hp
  have hfloor : ∀ x : ℚ, 1 ≤ x → 1 ≤ toFixed2 x := by
    intro x hx
    have := toFixed2_mono hx
    rwa [toFixed2_one] at this
  have hn := one_le_noChangeAt last.level (projectionFactorOf data historicalData) last.year i
  have hu := (uncertaintyFactor_bounds hi).1
  have hprod := mul_nonneg (le_trans zero_le_one hn) hu
  refine ⟨hfloor _ hn, hfloor _ (le_max_left _ _), hfloor _ ?_, hfloor _ (le_max_left _ _),
    hfloor _ (le_max_left _ _), hfloor _ (le_max_left _ _)⟩
  unfold noChangeUpperAt
  linarith

/-- Witness of C28: the point of horizon index 5 for a level of 2 m in 2024 and
an extraction rate of 90 %. -/
theorem levels_at_least_one_witness :
    1 ≤ (projectionPoint 2 (projectionFactorOf sampleHeavyUse sampleShallow) 2024 5).noChange ∧
      1 ≤ (projectionPoint 2 (projectionFactorOf sampleHeavyUse sampleShallow) 2024 5).worstCase :=
  ⟨(levels_at_least_one sampleHeavyUse sampleShallow _
      (getProjectionData_sampleHeavyUse ▸ List.mem_map.2 ⟨5, by simp, rfl⟩)).1,
    (levels_at_least_one sampleHeavyUse sampleShallow _
      (getProjectionData_sampleHeavyUse ▸ List.mem_map.2 ⟨5, by simp, rfl⟩)).2.2.2.2.2⟩

/-- C29: for every input with a non-empty trend series, the point at horizon
index 0 has noChange = noChangeLower = noChangeUpper = conservative =
aggressive = worstCase = max(1, anchorLevel) rounded to 2 decimals, whatever
the extraction rate, rainfall, recharge and historical slope are. -/
theorem anchor_at_index_zero (data : RegionData) (historicalData : List HistoricalPoint)
    (h : historicalData ≠ []) :
    ∃ p, (getProjectionData data historicalData)[0]? = some p ∧
      p.noChange = toFixed2 (max 1 (historicalData.getLast h).level) ∧
      p.noChangeLower = toFixed2 (max 1 (historicalData.getLast h).level) ∧
      p.noChangeUpper = toFixed2 (max 1 (historicalData.getLast h).level) ∧
      p.conservative = toFixed2 (max 1 (historicalData.getLast h).level) ∧
      p.aggressive = toFixed2 (max 1 (historicalData.getLast h).level) ∧
      p.worstCase = toFixed2 (max 1 (historicalData.getLast h).level) := by
  have hl : historicalData.getLast? = some (historicalData.getLast h) :=
    List.getLast?_eq_getLast _ h
  have hlen := @getProjectionData_length data historicalData h
  have h0 : 0 < (getProjectionData data historicalData).length := by omega
  refine ⟨_, by rw [List.getElem?_eq_getElem h0, getProjectionData_getElem hl], ?_⟩
  have hn : ∀ f : ℚ, noChangeAt (historicalData.getLast h).level f
      (historicalData.getLast h).year 0 = max 1 (historicalData.getLast h).level := by
    intro f
    simp [noChangeAt, getClimateImpact]
  refine ⟨?_, ?_, ?_, ?_, ?_, ?_⟩
  · simp only [projectionPoint, hn]
  · simp only [projectionPoint, noChangeLowerAt, hn, uncertaintyFactor]
    norm_num
  · simp only [projectionPoint, noChangeUpperAt, hn, uncertaintyFactor]
    norm_num
  · simp [projectionPoint, conservativeAt, getClimateImpact]
  · simp [projectionPoint, aggressiveAt, getClimateImpact]
  · simp [projectionPoint, worstCaseAt, getClimateImpact]

/-- Witness of C29: a level of 2 m in 2024 and an extraction rate of 90 %. -/
theorem anchor_at_index_zero_witness :
    ∃ p, (getProjectionData sampleHeavyUse sampleShallow)[0]? = some p ∧
      p.noChange = toFixed2 (max 1 2) ∧ p.noChangeLower = toFixed2 (max 1 2) ∧
      p.noChangeUpper = toFixed2 (max 1 2) ∧ p.conservative = toFixed2 (max 1 2) ∧
      p.aggressive = toFixed2 (max 1 2) ∧ p.worstCase = toFixed2 (max 1 2) :=
  anchor_at_index_zero sampleHeavyUse sampleShallow (by simp [sampleShallow])

end AquaVault
